import Mathlib

/-!
# Vulkan-Renderer: texture render system and frame renderer accessors

A shallow embedding of

* `src/renderer/systems/TextureRenderSystem.cpp` / `.hpp`
  (`fillModelsIds`, `createDescriptorSets`, `rewriteAndRecompileFragShader`,
  `createPipelineLayout`, `createPipeline`, `renderSceneObjects`, the constructor),
* `src/renderer.hpp` (`WrpRenderer::getCurrentCommandBuffer`, `WrpRenderer::getFrameIndex`), and
* `src/renderer/Camera.cpp` (`WrpCamera::setViewYXZ`).

Conventions of the embedding.

* Vulkan handles and floating-point payloads (matrices, colours, image infos, render passes)
  are carried through unchanged by the code; they are represented by natural-number tokens.
* A `std::unique_ptr` / Vulkan handle that may be null is an `Option`.
* Dereferencing a null pointer, indexing a vector out of range and a failed `assert` have no
  result: the enclosing function returns `none`.
* Vulkan and shaderc calls are taken to succeed (the `throw` paths are driver failures).
* Counts (`size()`, `texturesCount`, `prevModelCount`) are natural numbers and `int` values
  that can be negative are integers; the conversions between `int` and `size_t` are the
  identity on the counts that occur (below `2^31`). The draw loops are given a second time
  with their sums reduced to the range of a 32-bit `int` (`drawSubMeshes32`, `drawObjects32`,
  `renderSceneObjects32`).
* Text is a list of characters; a file is the text it holds.
* The camera matrices have their scalars in a ring, with `cos` and `sin` as parameters; the
  statements about them are over exact arithmetic, not over `float`.
-/

set_option maxRecDepth 100000

namespace Wrp

/-! ## Scene data (as used by the texture render system) -/

/-- Text: the contents of a `std::string` or of a text file. -/
abbrev Text := List Char

/-- The type `SceneObject::id_t`. -/
abbrev id_t := Nat

/-- A texture, seen through `descriptorInfo()` (a `VkDescriptorImageInfo` token). -/
structure Texture where
  descriptorInfo : Nat
  deriving DecidableEq, Repr

/-- One entry of `getSubMeshesInfos()`. -/
structure SubMeshInfo where
  indexCount : Nat
  indexStart : Nat
  diffuseTextureIndex : Int
  diffuseColor : Nat
  deriving DecidableEq, Repr

/-- The model of a scene object, seen through `hasTextures`, `getTextures()` and
`getSubMeshesInfos()`. -/
structure Model where
  hasTextures : Bool
  textures : List Texture
  subMeshes : List SubMeshInfo
  deriving DecidableEq, Repr

/-- A scene object: `model` is a possibly-null pointer, `mat4` and `normalMatrix` are the
values of `transform.mat4()` and `transform.normalMatrix()`. -/
structure SceneObject where
  model : Option Model
  mat4 : Nat
  normalMatrix : Nat
  deriving DecidableEq, Repr

/-- The type `SceneObject::Map`: the entries of the map in its iteration order. A map holds
each key once, which theorems state as `(sceneObjects.map Prod.fst).Nodup`. -/
abbrev SceneObject.Map := List (id_t × SceneObject)

/-- The struct `FrameInfo`. -/
structure FrameInfo where
  frameIndex : Nat
  commandBuffer : Nat
  globalDescriptorSet : Nat
  sceneObjects : SceneObject.Map

/-! ## Vulkan objects built by the system -/

/-- A compiled shader module, identified by the source text it was compiled from. -/
structure VkShaderModule where
  source : Text
  deriving DecidableEq, Repr

/-- Descriptor types. -/
inductive VkDescriptorType
  | UNIFORM_BUFFER
  | COMBINED_IMAGE_SAMPLER
  deriving DecidableEq, Repr

/-- Result of `WrpDescriptorPool::Builder`: `setMaxSets` and the `addPoolSize` calls. -/
structure WrpDescriptorPool where
  maxSets : Nat
  poolSizes : List (VkDescriptorType × Nat)
  deriving DecidableEq, Repr

/-- One `addBinding(binding, type, FRAGMENT_BIT, count)` call. -/
structure LayoutBinding where
  binding : Nat
  descriptorType : VkDescriptorType
  count : Nat
  deriving DecidableEq, Repr

/-- Result of `WrpDescriptorSetLayout::Builder`: the `addBinding` calls. -/
structure WrpDescriptorSetLayout where
  bindings : List LayoutBinding
  deriving DecidableEq, Repr

/-- One `writeImage(binding, imageInfos, count)` call. -/
structure ImageWrite where
  binding : Nat
  imageInfos : List Nat
  count : Nat
  deriving DecidableEq, Repr

/-- A descriptor set built by `WrpDescriptorWriter::build`: the writes it received. -/
structure VkDescriptorSet where
  writes : List ImageWrite
  deriving DecidableEq, Repr

/-- A pipeline layout: the two descriptor-set layouts given to `vkCreatePipelineLayout`. -/
structure VkPipelineLayout where
  globalSetLayout : Nat
  systemSetLayout : WrpDescriptorSetLayout
  deriving DecidableEq, Repr

/-- The arguments the system gives to the `WrpPipeline` constructor. -/
structure WrpPipeline where
  vertFilepath : String
  fragFilepath : String
  renderPass : Nat
  pipelineLayout : VkPipelineLayout
  vertShaderModule : Option VkShaderModule
  fragShaderModule : Option VkShaderModule
  deriving DecidableEq, Repr

/-- The struct `TextureSystemPushConstantData`. -/
structure TextureSystemPushConstantData where
  modelMatrix : Nat
  normalMatrix : Nat
  textureIndex : Int
  diffuseColor : Nat
  deriving DecidableEq, Repr

/-- Commands recorded into the frame's command buffer by `renderSceneObjects`. -/
inductive Cmd
  | bindPipeline (pipeline : WrpPipeline)
  | bindDescriptorSets (layout : Option VkPipelineLayout) (globalSet : Nat)
      (systemSet : Option VkDescriptorSet)
  | bindModel (id : id_t)
  | pushConstants (push : TextureSystemPushConstantData)
  | drawIndexed (indexCount indexStart : Nat)
  deriving DecidableEq, Repr

/-- The member functions whose calls are counted. -/
inductive Call
  | createDescriptorSets
  | rewriteAndRecompileFragShader (texturesCount : Nat)
  | createPipelineLayout
  | createPipeline
  deriving DecidableEq, Repr

/-- The class `TextureRenderSystem`: its data members, followed by the state outside the
object that its member functions read and write (the two shader files and the function-local
`static bool isTexturesDefined`) and by the record of calls made so far. -/
structure TextureRenderSystem where
  globalSetLayout : Nat
  swapChainRenderPass : Nat
  fragShaderModule : Option VkShaderModule
  wrpPipeline : Option WrpPipeline
  pipelineLayout : Option VkPipelineLayout
  modelObjectsIds : List id_t
  prevModelCount : Nat
  systemDescriptorPool : Option WrpDescriptorPool
  systemDescriptorSetLayout : Option WrpDescriptorSetLayout
  systemDescriptorSets : List (Option VkDescriptorSet)
  templateFrag : Option Text
  generatedFrag : Text
  isTexturesDefined : Bool
  calls : List Call
  deriving DecidableEq, Repr

/-! ## `fillModelsIds` -/

/-- The loop of `fillModelsIds`: `push_back` of the key of every entry whose model is non-null
and has `hasTextures == true`. -/
def fillLoop : List id_t → SceneObject.Map → List id_t
  | modelObjectsIds, [] => modelObjectsIds
  | modelObjectsIds, kv :: rest =>
    match kv.2.model with
    | some model =>
      if model.hasTextures = true then fillLoop (modelObjectsIds ++ [kv.1]) rest
      else fillLoop modelObjectsIds rest
    | none => fillLoop modelObjectsIds rest

/-- The function `TextureRenderSystem::fillModelsIds`: clears `modelObjectsIds`, refills it
and returns its size. -/
def TextureRenderSystem.fillModelsIds (s : TextureRenderSystem)
    (sceneObjects : SceneObject.Map) : TextureRenderSystem × Nat :=
  let modelObjectsIds := fillLoop [] sceneObjects
  ({ s with modelObjectsIds := modelObjectsIds }, modelObjectsIds.length)

/-! ## `rewriteAndRecompileFragShader` -/

/-- The lines that `while (std::getline(shaderFile, line))` reads from a file: the text is cut
at every newline, and nothing is read after a final newline. -/
def getlines : Text → List Text
  | [] => []
  | c :: cs =>
    if c = '\n' then [] :: getlines cs
    else
      match getlines cs with
      | [] => [[c]]
      | l :: ls => (c :: l) :: ls

/-- The initial value of the local `macros`. -/
def macrosPrefix : Text := "#define TEXTURES_COUNT ".toList

/-- The first injected line. -/
def texturesDefineLine : Text := "#define TEXTURES".toList

/-- The second injected line. -/
def samplerArrayLine : Text :=
  "layout(set = 1, binding = 0) uniform sampler2D texSampler[TEXTURES_COUNT]; // Combined Image Sampler дескрипторы".toList

/-- The variables carried by the line loop of `rewriteAndRecompileFragShader`. -/
structure RewriteState where
  macros : Text
  shaderContent : Text
  deriving DecidableEq, Repr

/-- One iteration of the line loop: `line.find(macros) != npos` holds when `macros` occurs
anywhere in `line`; `std::to_string(texturesCount)` is `Nat.toDigits 10 texturesCount`. -/
def rewriteStep (texturesCount : Nat) (isTexturesDefined : Bool)
    (st : RewriteState) (line : Text) : RewriteState :=
  if st.macros <:+: line then
    let macros := st.macros ++ Nat.toDigits 10 texturesCount
    let line := macros
    let shaderContent := st.shaderContent ++ (line ++ ['\n'])
    let shaderContent :=
      if !isTexturesDefined then
        (shaderContent ++ (texturesDefineLine ++ ['\n'])) ++ (samplerArrayLine ++ ['\n'])
      else shaderContent
    { macros := macros, shaderContent := shaderContent }
  else
    { macros := st.macros, shaderContent := st.shaderContent ++ (line ++ ['\n']) }

/-- The text `shaderContent` built from the template file (`none`: the file could not be
opened, and `shaderContent` stays empty). -/
def buildShaderContent (texturesCount : Nat) (isTexturesDefined : Bool)
    (templateFrag : Option Text) : Text :=
  match templateFrag with
  | some file =>
    ((getlines file).foldl (rewriteStep texturesCount isTexturesDefined)
      { macros := macrosPrefix, shaderContent := [] }).shaderContent
  | none => []

/-- The function `TextureRenderSystem::rewriteAndRecompileFragShader`: writes `shaderContent`
to the generated file, compiles that file and stores the module in `fragShaderModule`. The
static `isTexturesDefined` is read and never assigned. The generated file is taken to open for
writing, and the path read back for compilation to name the file just written. -/
def TextureRenderSystem.rewriteAndRecompileFragShader (s : TextureRenderSystem)
    (texturesCount : Nat) : TextureRenderSystem :=
  let shaderContent := buildShaderContent texturesCount s.isTexturesDefined s.templateFrag
  { s with
    generatedFrag := shaderContent
    fragShaderModule := some { source := shaderContent }
    calls := s.calls ++ [Call.rewriteAndRecompileFragShader texturesCount] }

/-! ## `createDescriptorSets` -/

/-- The first loop of `createDescriptorSets`: accumulates `texturesCount` and
`descriptorImageInfos` over `modelObjectsIds`. -/
def gatherTextures (sceneObjects : SceneObject.Map) :
    Nat → List Nat → List id_t → Option (Nat × List Nat)
  | texturesCount, descriptorImageInfos, [] => some (texturesCount, descriptorImageInfos)
  | texturesCount, descriptorImageInfos, id :: ids =>
    match sceneObjects.lookup id with
    | none => none
    | some obj =>
      match obj.model with
      | none => none
      | some model =>
        gatherTextures sceneObjects (texturesCount + model.textures.length)
          (descriptorImageInfos ++ model.textures.map Texture.descriptorInfo) ids

/-- The function `TextureRenderSystem::createDescriptorSets`. -/
def TextureRenderSystem.createDescriptorSets (MAX_FRAMES_IN_FLIGHT : Nat)
    (s : TextureRenderSystem) (frameInfo : FrameInfo) : Option TextureRenderSystem :=
  match gatherTextures frameInfo.sceneObjects 0 [] s.modelObjectsIds with
  | none => none
  | some (texturesCount, descriptorImageInfos) =>
    let systemDescriptorPool : WrpDescriptorPool :=
      { maxSets := MAX_FRAMES_IN_FLIGHT
        poolSizes :=
          if texturesCount ≠ 0 then
            [(VkDescriptorType.COMBINED_IMAGE_SAMPLER, MAX_FRAMES_IN_FLIGHT * texturesCount)]
          else [] }
    let systemDescriptorSetLayout : WrpDescriptorSetLayout :=
      { bindings :=
          if texturesCount ≠ 0 then
            [{ binding := 0, descriptorType := VkDescriptorType.COMBINED_IMAGE_SAMPLER,
               count := texturesCount }]
          else [] }
    let systemDescriptorSets : List (Option VkDescriptorSet) :=
      s.systemDescriptorSets.map fun _ =>
        some { writes :=
                if texturesCount ≠ 0 then
                  [{ binding := 0, imageInfos := descriptorImageInfos, count := texturesCount }]
                else [] }
    let s : TextureRenderSystem :=
      { s with
        systemDescriptorPool := some systemDescriptorPool
        systemDescriptorSetLayout := some systemDescriptorSetLayout
        systemDescriptorSets := systemDescriptorSets
        calls := s.calls ++ [Call.createDescriptorSets] }
    if texturesCount ≠ 0 then some (s.rewriteAndRecompileFragShader texturesCount)
    else some s

/-! ## `createPipelineLayout`, `createPipeline` -/

/-- The function `TextureRenderSystem::createPipelineLayout`. -/
def TextureRenderSystem.createPipelineLayout (s : TextureRenderSystem)
    (globalSetLayout : Nat) : Option TextureRenderSystem :=
  match s.systemDescriptorSetLayout with
  | none => none
  | some systemDescriptorSetLayout =>
    some { s with
      pipelineLayout :=
        some { globalSetLayout := globalSetLayout, systemSetLayout := systemDescriptorSetLayout }
      calls := s.calls ++ [Call.createPipelineLayout] }

/-- The function `TextureRenderSystem::createPipeline`. -/
def TextureRenderSystem.createPipeline (s : TextureRenderSystem)
    (renderPass : Nat) : Option TextureRenderSystem :=
  match s.pipelineLayout with
  | none => none
  | some pipelineLayout =>
    some { s with
      wrpPipeline :=
        some { vertFilepath := "src/renderer/shaders/TextureShader.vert.spv"
               fragFilepath := "src/renderer/shaders/TextureShader.frag.spv"
               renderPass := renderPass
               pipelineLayout := pipelineLayout
               vertShaderModule := none
               fragShaderModule := s.fragShaderModule }
      calls := s.calls ++ [Call.createPipeline] }

/-- The rebuild sequence shared by the constructor and `renderSceneObjects`. -/
def TextureRenderSystem.rebuild (MAX_FRAMES_IN_FLIGHT : Nat) (s : TextureRenderSystem)
    (frameInfo : FrameInfo) : Option TextureRenderSystem :=
  match s.createDescriptorSets MAX_FRAMES_IN_FLIGHT frameInfo with
  | none => none
  | some s =>
    match s.createPipelineLayout s.globalSetLayout with
    | none => none
    | some s => s.createPipeline s.swapChainRenderPass

/-! ## The constructor -/

/-- The object before the constructor body runs: the constructor's member initialisers and
the default member initialisers of the header, together with the shader files as they are
found. `systemDescriptorSets{WrpSwapChain::MAX_FRAMES_IN_FLIGHT}` is a vector of
`MAX_FRAMES_IN_FLIGHT` null handles: `VkDescriptorSet` is a pointer type, to which the integer
constant does not convert, so the braces select the size constructor. -/
def TextureRenderSystem.initial (MAX_FRAMES_IN_FLIGHT : Nat) (globalSetLayout : Nat)
    (swapChainRenderPass : Nat) (templateFrag : Option Text) (generatedFrag : Text) :
    TextureRenderSystem :=
  { globalSetLayout := globalSetLayout
    swapChainRenderPass := swapChainRenderPass
    fragShaderModule := none
    wrpPipeline := none
    pipelineLayout := none
    modelObjectsIds := []
    prevModelCount := 0
    systemDescriptorPool := none
    systemDescriptorSetLayout := none
    systemDescriptorSets := List.replicate MAX_FRAMES_IN_FLIGHT none
    templateFrag := templateFrag
    generatedFrag := generatedFrag
    isTexturesDefined := false
    calls := [] }

/-- The constructor `TextureRenderSystem::TextureRenderSystem`. -/
def TextureRenderSystem.construct (MAX_FRAMES_IN_FLIGHT : Nat) (globalSetLayout : Nat)
    (swapChainRenderPass : Nat) (templateFrag : Option Text) (generatedFrag : Text)
    (frameInfo : FrameInfo) : Option TextureRenderSystem :=
  let s := TextureRenderSystem.initial MAX_FRAMES_IN_FLIGHT globalSetLayout swapChainRenderPass
    templateFrag generatedFrag
  let r := s.fillModelsIds frameInfo.sceneObjects
  let s := { r.1 with prevModelCount := r.2 }
  s.rebuild MAX_FRAMES_IN_FLIGHT frameInfo

/-! ## `renderSceneObjects` -/

/-- The inner loop of `renderSceneObjects` over the sub-meshes of one object; `push` is the
struct declared before the loop and assigned in every iteration. -/
def drawSubMeshes (textureIndexOffset : Int) :
    TextureSystemPushConstantData → List SubMeshInfo → List Cmd
  | _, [] => []
  | push, subMesh :: rest =>
    let push : TextureSystemPushConstantData :=
      if subMesh.diffuseTextureIndex ≠ -1 then
        { push with textureIndex := textureIndexOffset + subMesh.diffuseTextureIndex }
      else
        { push with textureIndex := -1 }
    let push : TextureSystemPushConstantData :=
      { push with diffuseColor := subMesh.diffuseColor }
    Cmd.pushConstants push :: Cmd.drawIndexed subMesh.indexCount subMesh.indexStart ::
      drawSubMeshes textureIndexOffset push rest

/-- The outer loop of `renderSceneObjects` over `modelObjectsIds`, started with
`textureIndexOffset`. -/
def drawObjects (sceneObjects : SceneObject.Map) : Int → List id_t → Option (List Cmd)
  | _, [] => some []
  | textureIndexOffset, id :: ids =>
    match sceneObjects.lookup id with
    | none => none
    | some obj =>
      match obj.model with
      | none => none
      | some model =>
        let push : TextureSystemPushConstantData :=
          { modelMatrix := obj.mat4, normalMatrix := obj.normalMatrix,
            textureIndex := 0, diffuseColor := 0 }
        match drawObjects sceneObjects (textureIndexOffset + model.textures.length) ids with
        | none => none
        | some cmds =>
          some (Cmd.bindModel id ::
            (drawSubMeshes textureIndexOffset push model.subMeshes ++ cmds))

/-- The first statements of `renderSceneObjects`: refill `modelObjectsIds`, rebuild when the
returned count differs from `prevModelCount`, then store the new count. -/
def TextureRenderSystem.refresh (MAX_FRAMES_IN_FLIGHT : Nat) (s : TextureRenderSystem)
    (frameInfo : FrameInfo) : Option TextureRenderSystem :=
  let r := s.fillModelsIds frameInfo.sceneObjects
  let rebuilt : Option TextureRenderSystem :=
    if r.1.prevModelCount ≠ r.2 then r.1.rebuild MAX_FRAMES_IN_FLIGHT frameInfo
    else some r.1
  match rebuilt with
  | none => none
  | some s => some { s with prevModelCount := s.modelObjectsIds.length }

/-- The function `TextureRenderSystem::renderSceneObjects`: the new state of the system and
the commands recorded. -/
def TextureRenderSystem.renderSceneObjects (MAX_FRAMES_IN_FLIGHT : Nat)
    (s : TextureRenderSystem) (frameInfo : FrameInfo) :
    Option (TextureRenderSystem × List Cmd) :=
  match s.refresh MAX_FRAMES_IN_FLIGHT frameInfo with
  | none => none
  | some s =>
    match s.wrpPipeline with
    | none => none
    | some wrpPipeline =>
      match s.systemDescriptorSets[frameInfo.frameIndex]? with
      | none => none
      | some systemSet =>
        match drawObjects frameInfo.sceneObjects 0 s.modelObjectsIds with
        | none => none
        | some draws =>
          some (s, Cmd.bindPipeline wrpPipeline ::
            Cmd.bindDescriptorSets s.pipelineLayout frameInfo.globalDescriptorSet systemSet ::
            draws)

/-! ## `renderSceneObjects` with the arithmetic of `int`

`textureIndexOffset`, `diffuseTextureIndex` and `textureIndex` are 32-bit `int`s. The
definitions above add them as integers, which is what the code computes as long as no sum
leaves the range of `int`. The definitions below are the same loops with every sum reduced to
that range, as the compiled code does. -/

/-- The value a 32-bit `int` takes for the sum `z`: `z` reduced modulo `2^32` into the range
from `-2^31` to `2^31 - 1`. -/
def int32 (z : Int) : Int :=
  (z + 2147483648) % 4294967296 - 2147483648

/-- The inner loop of `renderSceneObjects` over the sub-meshes of one object, with
`textureIndexOffset + subMesh.diffuseTextureIndex` computed in `int`. -/
def drawSubMeshes32 (textureIndexOffset : Int) :
    TextureSystemPushConstantData → List SubMeshInfo → List Cmd
  | _, [] => []
  | push, subMesh :: rest =>
    let push : TextureSystemPushConstantData :=
      if subMesh.diffuseTextureIndex ≠ -1 then
        { push with textureIndex := int32 (textureIndexOffset + subMesh.diffuseTextureIndex) }
      else
        { push with textureIndex := -1 }
    let push : TextureSystemPushConstantData :=
      { push with diffuseColor := subMesh.diffuseColor }
    Cmd.pushConstants push :: Cmd.drawIndexed subMesh.indexCount subMesh.indexStart ::
      drawSubMeshes32 textureIndexOffset push rest

/-- The outer loop of `renderSceneObjects` over `modelObjectsIds`, with
`textureIndexOffset += obj.model->getTextures().size()` stored back into an `int`. -/
def drawObjects32 (sceneObjects : SceneObject.Map) : Int → List id_t → Option (List Cmd)
  | _, [] => some []
  | textureIndexOffset, id :: ids =>
    match sceneObjects.lookup id with
    | none => none
    | some obj =>
      match obj.model with
      | none => none
      | some model =>
        let push : TextureSystemPushConstantData :=
          { modelMatrix := obj.mat4, normalMatrix := obj.normalMatrix,
            textureIndex := 0, diffuseColor := 0 }
        match drawObjects32 sceneObjects
            (int32 (textureIndexOffset + model.textures.length)) ids with
        | none => none
        | some cmds =>
          some (Cmd.bindModel id ::
            (drawSubMeshes32 textureIndexOffset push model.subMeshes ++ cmds))

/-- The function `TextureRenderSystem::renderSceneObjects` with the draw loops in the
arithmetic of `int`: the new state of the system and the commands recorded. -/
def TextureRenderSystem.renderSceneObjects32 (MAX_FRAMES_IN_FLIGHT : Nat)
    (s : TextureRenderSystem) (frameInfo : FrameInfo) :
    Option (TextureRenderSystem × List Cmd) :=
  match s.refresh MAX_FRAMES_IN_FLIGHT frameInfo with
  | none => none
  | some s =>
    match s.wrpPipeline with
    | none => none
    | some wrpPipeline =>
      match s.systemDescriptorSets[frameInfo.frameIndex]? with
      | none => none
      | some systemSet =>
        match drawObjects32 frameInfo.sceneObjects 0 s.modelObjectsIds with
        | none => none
        | some draws =>
          some (s, Cmd.bindPipeline wrpPipeline ::
            Cmd.bindDescriptorSets s.pipelineLayout frameInfo.globalDescriptorSet systemSet ::
            draws)

/-! ## `WrpRenderer` accessors -/

/-- The data members of `WrpRenderer` that the accessors read. -/
structure WrpRenderer where
  commandBuffers : List Nat
  currentImageIndex : Nat
  currentFrameIndex : Int
  isFrameStarted : Bool
  deriving DecidableEq, Repr

/-- The function `WrpRenderer::getCurrentCommandBuffer` (a `const` member function): the value
returned together with the renderer after the call, `none` when the assertion fails or the
index is outside `commandBuffers`. -/
def WrpRenderer.getCurrentCommandBuffer (r : WrpRenderer) : Option (Nat × WrpRenderer) :=
  if r.isFrameStarted = true then
    if 0 ≤ r.currentFrameIndex then
      match r.commandBuffers[r.currentFrameIndex.toNat]? with
      | some commandBuffer => some (commandBuffer, r)
      | none => none
    else none
  else none

/-- The function `WrpRenderer::getFrameIndex` (a `const` member function): the value returned
together with the renderer after the call, `none` when the assertion fails. -/
def WrpRenderer.getFrameIndex (r : WrpRenderer) : Option (Int × WrpRenderer) :=
  if r.isFrameStarted = true then some (r.currentFrameIndex, r) else none

/-! ## `WrpCamera::setViewYXZ` -/

/-- The type `glm::vec3`, with scalars in `R`. The source computes in `float`; the embedding
takes the scalars in a ring and the functions `cos` and `sin` as parameters. -/
structure vec3 (R : Type) where
  x : R
  y : R
  z : R

/-- The type `glm::mat4`, with scalars in `R`: `m c r` is the entry `m[c][r]`, column `c` and
row `r`. -/
abbrev mat4 (R : Type) := Fin 4 → Fin 4 → R

/-- The matrix `glm::mat4{v}`: `v` on the diagonal and zero elsewhere. -/
def mat4.diagonal {R : Type} [Zero R] (v : R) : mat4 R :=
  fun c r => if c = r then v else 0

/-- The assignment `m[c][r] = v`. -/
def mat4.set {R : Type} (m : mat4 R) (c r : Fin 4) (v : R) : mat4 R :=
  fun c1 r1 => if c1 = c ∧ r1 = r then v else m c1 r1

/-- The function `glm::dot` on `vec3`. -/
def dot {R : Type} [Add R] [Mul R] (a b : vec3 R) : R :=
  a.x * b.x + a.y * b.y + a.z * b.z

/-- The matrices held by `WrpCamera`. -/
structure WrpCamera (R : Type) where
  projectionMatrix : mat4 R
  viewMatrix : mat4 R
  inverseViewMatrix : mat4 R

/-- The function `WrpCamera::setViewYXZ`. -/
def WrpCamera.setViewYXZ {R : Type} [Ring R] (cos sin : R → R) (camera : WrpCamera R)
    (position rotation : vec3 R) : WrpCamera R :=
  let c3 := cos rotation.z
  let s3 := sin rotation.z
  let c2 := cos rotation.x
  let s2 := sin rotation.x
  let c1 := cos rotation.y
  let s1 := sin rotation.y
  let u : vec3 R := { x := c1 * c3 + s1 * s2 * s3, y := c2 * s3, z := c1 * s2 * s3 - c3 * s1 }
  let v : vec3 R := { x := c3 * s1 * s2 - c1 * s3, y := c2 * c3, z := c1 * c3 * s2 + s1 * s3 }
  let w : vec3 R := { x := c2 * s1, y := -s2, z := c1 * c2 }
  let viewMatrix : mat4 R := mat4.diagonal 1
  let viewMatrix := viewMatrix.set 0 0 u.x
  let viewMatrix := viewMatrix.set 1 0 u.y
  let viewMatrix := viewMatrix.set 2 0 u.z
  let viewMatrix := viewMatrix.set 0 1 v.x
  let viewMatrix := viewMatrix.set 1 1 v.y
  let viewMatrix := viewMatrix.set 2 1 v.z
  let viewMatrix := viewMatrix.set 0 2 w.x
  let viewMatrix := viewMatrix.set 1 2 w.y
  let viewMatrix := viewMatrix.set 2 2 w.z
  let viewMatrix := viewMatrix.set 3 0 (-dot u position)
  let viewMatrix := viewMatrix.set 3 1 (-dot v position)
  let viewMatrix := viewMatrix.set 3 2 (-dot w position)
  let inverseViewMatrix : mat4 R := mat4.diagonal 1
  let inverseViewMatrix := inverseViewMatrix.set 0 0 u.x
  let inverseViewMatrix := inverseViewMatrix.set 0 1 u.y
  let inverseViewMatrix := inverseViewMatrix.set 0 2 u.z
  let inverseViewMatrix := inverseViewMatrix.set 1 0 v.x
  let inverseViewMatrix := inverseViewMatrix.set 1 1 v.y
  let inverseViewMatrix := inverseViewMatrix.set 1 2 v.z
  let inverseViewMatrix := inverseViewMatrix.set 2 0 w.x
  let inverseViewMatrix := inverseViewMatrix.set 2 1 w.y
  let inverseViewMatrix := inverseViewMatrix.set 2 2 w.z
  let inverseViewMatrix := inverseViewMatrix.set 3 0 position.x
  let inverseViewMatrix := inverseViewMatrix.set 3 1 position.y
  let inverseViewMatrix := inverseViewMatrix.set 3 2 position.z
  { camera with viewMatrix := viewMatrix, inverseViewMatrix := inverseViewMatrix }

/-! ## Vocabulary of the statements -/

/-- An object is eligible when its model is non-null and has textures. -/
def eligible (obj : SceneObject) : Bool :=
  match obj.model with
  | some model => model.hasTextures
  | none => false

/-- The number of textures of an object (`model->getTextures().size()`). -/
def textureCount (obj : SceneObject) : Nat :=
  match obj.model with
  | some model => model.textures.length
  | none => 0

/-- The sub-meshes of an object. -/
def subMeshesOf (obj : SceneObject) : List SubMeshInfo :=
  match obj.model with
  | some model => model.subMeshes
  | none => []

/-- The image infos of the textures of an object. -/
def imageInfosOf (obj : SceneObject) : List Nat :=
  match obj.model with
  | some model => model.textures.map Texture.descriptorInfo
  | none => []

/-- The eligible objects of a scene, in iteration order. -/
def eligibleObjects (sceneObjects : SceneObject.Map) : List SceneObject :=
  (sceneObjects.filter fun kv => eligible kv.2).map Prod.snd

/-- The total texture count of the eligible objects of a scene. -/
def totalTextureCount (sceneObjects : SceneObject.Map) : Nat :=
  ((eligibleObjects sceneObjects).map textureCount).sum

/-- The texture indices pushed by a command sequence, in order. -/
def pushedTextureIndices : List Cmd → List Int
  | [] => []
  | Cmd.pushConstants push :: cmds => push.textureIndex :: pushedTextureIndices cmds
  | _ :: cmds => pushedTextureIndices cmds

/-- The length of the texture array declared by a descriptor-set layout: the count of its
binding 0, and 0 when it has no such binding. -/
def WrpDescriptorSetLayout.textureArrayLength (layout : WrpDescriptorSetLayout) : Nat :=
  match layout.bindings.find? fun b => b.binding == 0 with
  | some b => b.count
  | none => 0

/-- The calls of one rebuild sequence that computes `n` total textures: the three calls of
the sequence, with the shader regeneration that `createDescriptorSets` makes when `n ≠ 0`. -/
def rebuildCalls (n : Nat) : List Call :=
  if n ≠ 0 then
    [Call.createDescriptorSets, Call.rewriteAndRecompileFragShader n,
     Call.createPipelineLayout, Call.createPipeline]
  else [Call.createDescriptorSets, Call.createPipelineLayout, Call.createPipeline]

/-- Text made of the given lines, each followed by a newline. -/
def unlines : List Text → Text
  | [] => []
  | l :: ls => l ++ '\n' :: unlines ls

/-- The texture array a descriptor set holds at binding 0 after its writes: the first `count`
image infos of the write to binding 0, and nothing when there is no such write. -/
def VkDescriptorSet.textureArray (set : VkDescriptorSet) : List Nat :=
  match set.writes.find? fun w => w.binding == 0 with
  | some w => w.imageInfos.take w.count
  | none => []

/-- The image infos of the textures of the eligible objects, concatenated in iteration
order. -/
def concatenatedImageInfos (sceneObjects : SceneObject.Map) : List Nat :=
  (eligibleObjects sceneObjects).flatMap imageInfosOf

/-- The sub-meshes drawn for a scene, each with its object, in draw order. -/
def drawnSubMeshes (sceneObjects : SceneObject.Map) : List (SceneObject × SubMeshInfo) :=
  (eligibleObjects sceneObjects).flatMap fun obj => (subMeshesOf obj).map fun sm => (obj, sm)

/-- The pushed texture index `i` of a sub-mesh of an object agrees with the descriptor array
of the scene: when the `diffuseTextureIndex` `d` of the sub-mesh satisfies
`0 ≤ d < texture count of the object`, then `0 ≤ i < total texture count` and the `i`-th
concatenated image info is the `d`-th image info of the object (which exists). -/
def indexAgrees (sceneObjects : SceneObject.Map) (i : Int)
    (osm : SceneObject × SubMeshInfo) : Prop :=
  0 ≤ osm.2.diffuseTextureIndex →
  osm.2.diffuseTextureIndex < (textureCount osm.1 : Int) →
    0 ≤ i ∧ i < (totalTextureCount sceneObjects : Int) ∧
    (concatenatedImageInfos sceneObjects)[i.toNat]?
      = (imageInfosOf osm.1)[osm.2.diffuseTextureIndex.toNat]? ∧
    ((imageInfosOf osm.1)[osm.2.diffuseTextureIndex.toNat]?).isSome = true

/-- A `glm::mat4` as a matrix with rows and columns: entry `(r, c)` is `m[c][r]`. -/
def mat4.toMatrix {R : Type} (m : mat4 R) : Matrix (Fin 4) (Fin 4) R :=
  Matrix.of fun r c => m c r

/-! ## Example scenes -/

/-- A template fragment shader with one sentinel line. -/
def exampleTemplate : Text :=
  "#version 450\n#define TEXTURES_COUNT 1\nvoid main() \x7b\x7d\n".toList

/-- Object A of the scenario: two textures, one sub-mesh using its texture 0. -/
def objectA : SceneObject :=
  { model := some { hasTextures := true
                    textures := [{ descriptorInfo := 10 }, { descriptorInfo := 11 }]
                    subMeshes := [{ indexCount := 6, indexStart := 0,
                                    diffuseTextureIndex := 0, diffuseColor := 1 }] }
    mat4 := 1
    normalMatrix := 2 }

/-- Object B of the scenario: one texture, one sub-mesh using its texture 0. -/
def objectB : SceneObject :=
  { model := some { hasTextures := true
                    textures := [{ descriptorInfo := 20 }]
                    subMeshes := [{ indexCount := 3, indexStart := 0,
                                    diffuseTextureIndex := 0, diffuseColor := 2 }] }
    mat4 := 3
    normalMatrix := 4 }

/-- A frame whose scene holds objects A and B. -/
def frameAB : FrameInfo :=
  { frameIndex := 0, commandBuffer := 0, globalDescriptorSet := 0,
    sceneObjects := [(1, objectA), (2, objectB)] }

/-- The system constructed on the scene of `frameAB` with two frames in flight. -/
def systemAB : TextureRenderSystem :=
  (TextureRenderSystem.construct 2 0 0 (some exampleTemplate) [] frameAB).getD
    (TextureRenderSystem.initial 2 0 0 (some exampleTemplate) [])

/-- Sub-meshes of one object: textured, untextured, textured. -/
def exampleSubMeshes : List SubMeshInfo :=
  [{ indexCount := 3, indexStart := 0, diffuseTextureIndex := 1, diffuseColor := 5 },
   { indexCount := 3, indexStart := 3, diffuseTextureIndex := -1, diffuseColor := 6 },
   { indexCount := 3, indexStart := 6, diffuseTextureIndex := 0, diffuseColor := 7 }]

/-- A frame whose scene holds object A only. -/
def frameA : FrameInfo :=
  { frameIndex := 1, commandBuffer := 0, globalDescriptorSet := 0,
    sceneObjects := [(1, objectA)] }

/-- A frame whose scene holds object B only. -/
def frameB : FrameInfo :=
  { frameIndex := 0, commandBuffer := 0, globalDescriptorSet := 0,
    sceneObjects := [(2, objectB)] }

/-- A frame whose scene holds one object without a model. -/
def frameEmpty : FrameInfo :=
  { frameIndex := 0, commandBuffer := 0, globalDescriptorSet := 0,
    sceneObjects := [(7, { model := none, mat4 := 0, normalMatrix := 0 })] }

/-- The system constructed on the scene of `frameEmpty` with two frames in flight. -/
def systemEmpty : TextureRenderSystem :=
  (TextureRenderSystem.construct 2 0 0 (some exampleTemplate) [] frameEmpty).getD
    (TextureRenderSystem.initial 2 0 0 (some exampleTemplate) [])

/-- Object C: three textures, one sub-mesh using its texture 2. -/
def objectC : SceneObject :=
  { model := some { hasTextures := true
                    textures := [{ descriptorInfo := 30 }, { descriptorInfo := 31 },
                                 { descriptorInfo := 32 }]
                    subMeshes := [{ indexCount := 3, indexStart := 0,
                                    diffuseTextureIndex := 2, diffuseColor := 3 }] }
    mat4 := 5
    normalMatrix := 6 }

/-- A frame whose scene holds an object without a model and object C. -/
def frameC : FrameInfo :=
  { frameIndex := 0, commandBuffer := 0, globalDescriptorSet := 0,
    sceneObjects := [(7, { model := none, mat4 := 0, normalMatrix := 0 }), (3, objectC)] }

/-- The next frame on the scene of `frameC`. -/
def frameC2 : FrameInfo :=
  { frameIndex := 1, commandBuffer := 1, globalDescriptorSet := 0,
    sceneObjects := frameC.sceneObjects }

/-- A template whose first line holds the sentinel text inside a comment and whose second
line begins with it. -/
def commentedTemplate : Text :=
  "// #define TEXTURES_COUNT 0\n#define TEXTURES_COUNT 0\n".toList

/-- A template whose first line is the only one beginning with the sentinel text and whose
second line holds that text, followed by `5`, inside a comment. -/
def countInCommentTemplate : Text :=
  "#define TEXTURES_COUNT 0\n// was: #define TEXTURES_COUNT 5\nvoid main() \x7b\x7d\n".toList

/-- A renderer with two command buffers, in a frame, at frame index 1. -/
def rendererInFrame : WrpRenderer :=
  { commandBuffers := [100, 101], currentImageIndex := 0, currentFrameIndex := 1,
    isFrameStarted := true }

/-! ## Lemmas: scene maps and `fillModelsIds` -/

theorem fillLoop_eq (acc : List id_t) (sceneObjects : SceneObject.Map) :
    fillLoop acc sceneObjects
      = acc ++ (sceneObjects.filter fun kv => eligible kv.2).map Prod.fst := by
  induction sceneObjects generalizing acc with
  | nil => simp [fillLoop]
  | cons kv rest ih =>
    rcases kv with ⟨id, obj⟩
    cases hm : obj.model with
    | none => simp [fillLoop, hm, eligible, ih]
    | some m =>
      cases hh : m.hasTextures <;> simp [fillLoop, hm, eligible, hh, ih]

theorem lookup_of_mem {sceneObjects : SceneObject.Map}
    (hnd : (sceneObjects.map Prod.fst).Nodup) {id : id_t} {obj : SceneObject}
    (h : (id, obj) ∈ sceneObjects) : sceneObjects.lookup id = some obj := by
  induction sceneObjects with
  | nil => simp at h
  | cons kv rest ih =>
    rcases kv with ⟨k, v⟩
    simp only [List.map_cons, List.nodup_cons] at hnd
    rcases List.mem_cons.mp h with heq | hmem
    · cases heq
      simp
    · have hne : id ≠ k := by
        rintro rfl
        exact hnd.1 (List.mem_map_of_mem Prod.fst hmem)
      have hb : (id == k) = false := by simpa using hne
      rw [List.lookup_cons, hb]
      exact ih hnd.2 hmem

/-- The entries of a scene that `fillModelsIds` selects. -/
theorem eligible_entries_spec {sceneObjects : SceneObject.Map}
    (hnd : (sceneObjects.map Prod.fst).Nodup) :
    ∀ e ∈ sceneObjects.filter (fun kv => eligible kv.2),
      sceneObjects.lookup e.1 = some e.2 ∧ eligible e.2 = true := by
  intro e he
  rcases List.mem_filter.mp he with ⟨hmem, hel⟩
  exact ⟨lookup_of_mem hnd hmem, hel⟩

theorem eligible_model {obj : SceneObject} (h : eligible obj = true) :
    ∃ m, obj.model = some m := by
  unfold eligible at h
  cases hm : obj.model with
  | none => simp [hm] at h
  | some m => exact ⟨m, rfl⟩

/-! ## Lemmas: the loops over `modelObjectsIds` -/

theorem gatherTextures_entries (sceneObjects : SceneObject.Map)
    (es : List (id_t × SceneObject))
    (hes : ∀ e ∈ es, sceneObjects.lookup e.1 = some e.2 ∧ eligible e.2 = true)
    (n : Nat) (infos : List Nat) :
    gatherTextures sceneObjects n infos (es.map Prod.fst)
      = some (n + ((es.map Prod.snd).map textureCount).sum,
              infos ++ (es.map Prod.snd).flatMap imageInfosOf) := by
  induction es generalizing n infos with
  | nil => simp [gatherTextures]
  | cons e rest ih =>
    have he := hes e (List.mem_cons_self _ _)
    obtain ⟨m, hm⟩ := eligible_model he.2
    have ih' := ih (fun x hx => hes x (List.mem_cons_of_mem _ hx))
    simp only [List.map_cons, gatherTextures, he.1, hm, ih', textureCount, imageInfosOf,
      List.sum_cons, List.flatMap_cons, List.append_assoc, Nat.add_assoc]

theorem pushedTextureIndices_append (a b : List Cmd) :
    pushedTextureIndices (a ++ b) = pushedTextureIndices a ++ pushedTextureIndices b := by
  induction a with
  | nil => rfl
  | cons c rest ih => cases c <;> simp [pushedTextureIndices, ih]

theorem pushedTextureIndices_drawSubMeshes (off : Int) (push : TextureSystemPushConstantData)
    (subMeshes : List SubMeshInfo) :
    pushedTextureIndices (drawSubMeshes off push subMeshes)
      = subMeshes.map fun sm =>
          if sm.diffuseTextureIndex = -1 then -1 else off + sm.diffuseTextureIndex := by
  induction subMeshes generalizing push with
  | nil => rfl
  | cons sm rest ih =>
    by_cases h : sm.diffuseTextureIndex = -1 <;>
      simp [drawSubMeshes, pushedTextureIndices, ih, h]

theorem drawObjects_entries (sceneObjects : SceneObject.Map)
    (es : List (id_t × SceneObject))
    (hes : ∀ e ∈ es, sceneObjects.lookup e.1 = some e.2 ∧ eligible e.2 = true)
    (off : Int) :
    ∃ cmds, drawObjects sceneObjects off (es.map Prod.fst) = some cmds ∧
      pushedTextureIndices cmds
        = (es.map Prod.snd).enum.flatMap fun ko =>
            (subMeshesOf ko.2).map fun sm =>
              if sm.diffuseTextureIndex = -1 then -1
              else off + ((((es.map Prod.snd).take ko.1).map textureCount).sum : Nat)
                    + sm.diffuseTextureIndex := by
  induction es generalizing off with
  | nil => exact ⟨[], by simp [drawObjects], by simp [pushedTextureIndices]⟩
  | cons e rest ih =>
    have he := hes e (List.mem_cons_self _ _)
    obtain ⟨m, hm⟩ := eligible_model he.2
    obtain ⟨cmds, hc, hp⟩ :=
      ih (fun x hx => hes x (List.mem_cons_of_mem _ hx)) (off + m.textures.length)
    refine ⟨Cmd.bindModel e.1 :: (drawSubMeshes off
      { modelMatrix := e.2.mat4, normalMatrix := e.2.normalMatrix,
        textureIndex := 0, diffuseColor := 0 } m.subMeshes ++ cmds), ?_, ?_⟩
    · simp only [List.map_cons, drawObjects, he.1, hm, hc]
    simp only [pushedTextureIndices, pushedTextureIndices_append,
      pushedTextureIndices_drawSubMeshes, hp, List.map_cons, List.enum_cons', 
      List.flatMap_cons, List.flatMap_map, subMeshesOf, hm]
    congr 1
    · simp
    · congr 1
      funext ko
      simp only [Function.comp, Prod.map, id, List.take_succ_cons, List.map_cons, List.sum_cons,
        textureCount, hm]
      congr 1
      funext sm
      push_cast
      ring_nf

theorem gatherTextures_fill {sceneObjects : SceneObject.Map}
    (hnd : (sceneObjects.map Prod.fst).Nodup) :
    gatherTextures sceneObjects 0 [] (fillLoop [] sceneObjects)
      = some (totalTextureCount sceneObjects,
              (eligibleObjects sceneObjects).flatMap imageInfosOf) := by
  rw [fillLoop_eq, List.nil_append,
    gatherTextures_entries sceneObjects _ (eligible_entries_spec hnd) 0 []]
  simp [totalTextureCount, eligibleObjects]

theorem drawObjects_fill {sceneObjects : SceneObject.Map}
    (hnd : (sceneObjects.map Prod.fst).Nodup) :
    ∃ cmds, drawObjects sceneObjects 0 (fillLoop [] sceneObjects) = some cmds ∧
      pushedTextureIndices cmds
        = (eligibleObjects sceneObjects).enum.flatMap fun ko =>
            (subMeshesOf ko.2).map fun sm =>
              if sm.diffuseTextureIndex = -1 then (-1 : Int)
              else (((((eligibleObjects sceneObjects).take ko.1).map textureCount).sum : Nat) : Int)
                    + sm.diffuseTextureIndex := by
  obtain ⟨cmds, hc, hp⟩ :=
    drawObjects_entries sceneObjects _ (eligible_entries_spec hnd) 0
  refine ⟨cmds, ?_, ?_⟩
  · rw [fillLoop_eq, List.nil_append]
    exact hc
  · rw [hp]
    simp only [eligibleObjects, zero_add]

/-! ## Lemmas: the rebuild sequence -/

/-- The state produced by the rebuild sequence, field by field, when `modelObjectsIds` has
just been filled from the scene of the frame. -/
theorem rebuild_eq (MAX_FRAMES_IN_FLIGHT : Nat) (s : TextureRenderSystem) (frameInfo : FrameInfo)
    (hnd : (frameInfo.sceneObjects.map Prod.fst).Nodup)
    (hids : s.modelObjectsIds = fillLoop [] frameInfo.sceneObjects) :
    s.rebuild MAX_FRAMES_IN_FLIGHT frameInfo
      = some
          (let n := totalTextureCount frameInfo.sceneObjects
           let infos := (eligibleObjects frameInfo.sceneObjects).flatMap imageInfosOf
           let content := buildShaderContent n s.isTexturesDefined s.templateFrag
           let layout : WrpDescriptorSetLayout :=
             { bindings :=
                 if n ≠ 0 then [{ binding := 0,
                                  descriptorType := VkDescriptorType.COMBINED_IMAGE_SAMPLER,
                                  count := n }]
                 else [] }
           let frag := if n ≠ 0 then some { source := content } else s.fragShaderModule
           { s with
             systemDescriptorPool :=
               some { maxSets := MAX_FRAMES_IN_FLIGHT
                      poolSizes :=
                        if n ≠ 0 then
                          [(VkDescriptorType.COMBINED_IMAGE_SAMPLER, MAX_FRAMES_IN_FLIGHT * n)]
                        else [] }
             systemDescriptorSetLayout := some layout
             systemDescriptorSets :=
               s.systemDescriptorSets.map fun _ =>
                 some { writes :=
                          if n ≠ 0 then [{ binding := 0, imageInfos := infos, count := n }]
                          else [] }
             generatedFrag := if n ≠ 0 then content else s.generatedFrag
             fragShaderModule := frag
             pipelineLayout :=
               some { globalSetLayout := s.globalSetLayout, systemSetLayout := layout }
             wrpPipeline :=
               some { vertFilepath := "src/renderer/shaders/TextureShader.vert.spv"
                      fragFilepath := "src/renderer/shaders/TextureShader.frag.spv"
                      renderPass := s.swapChainRenderPass
                      pipelineLayout :=
                        { globalSetLayout := s.globalSetLayout, systemSetLayout := layout }
                      vertShaderModule := none
                      fragShaderModule := frag }
             calls :=
               s.calls ++
                 (if n ≠ 0 then
                    [Call.createDescriptorSets, Call.rewriteAndRecompileFragShader n,
                     Call.createPipelineLayout, Call.createPipeline]
                  else
                    [Call.createDescriptorSets, Call.createPipelineLayout,
                     Call.createPipeline]) }) := by
  unfold TextureRenderSystem.rebuild TextureRenderSystem.createDescriptorSets
  rw [hids, gatherTextures_fill hnd]
  by_cases h : totalTextureCount frameInfo.sceneObjects = 0
  · simp [h, TextureRenderSystem.createPipelineLayout, TextureRenderSystem.createPipeline]
  · simp [h, TextureRenderSystem.createPipelineLayout, TextureRenderSystem.createPipeline,
      TextureRenderSystem.rewriteAndRecompileFragShader]

theorem refresh_eq (MAX_FRAMES_IN_FLIGHT : Nat) (s : TextureRenderSystem)
    (frameInfo : FrameInfo) :
    s.refresh MAX_FRAMES_IN_FLIGHT frameInfo
      = (if s.prevModelCount ≠ (fillLoop [] frameInfo.sceneObjects).length then
           TextureRenderSystem.rebuild MAX_FRAMES_IN_FLIGHT
             { s with modelObjectsIds := fillLoop [] frameInfo.sceneObjects } frameInfo
         else some { s with modelObjectsIds := fillLoop [] frameInfo.sceneObjects }).map
          fun s1 => { s1 with prevModelCount := s1.modelObjectsIds.length } := by
  unfold TextureRenderSystem.refresh TextureRenderSystem.fillModelsIds
  by_cases h : s.prevModelCount = (fillLoop [] frameInfo.sceneObjects).length
  · simp [h]
  · simp only [ne_eq, h, not_false_eq_true, if_true]
    cases TextureRenderSystem.rebuild MAX_FRAMES_IN_FLIGHT
      { s with modelObjectsIds := fillLoop [] frameInfo.sceneObjects } frameInfo <;> rfl

theorem refresh_spec (MAX_FRAMES_IN_FLIGHT : Nat) (s : TextureRenderSystem)
    (frameInfo : FrameInfo) (hnd : (frameInfo.sceneObjects.map Prod.fst).Nodup) :
    ∃ s1, s.refresh MAX_FRAMES_IN_FLIGHT frameInfo = some s1 ∧
      s1.modelObjectsIds = fillLoop [] frameInfo.sceneObjects ∧
      s1.systemDescriptorSets.length = s.systemDescriptorSets.length ∧
      (s.wrpPipeline.isSome = true → s1.wrpPipeline.isSome = true) := by
  rw [refresh_eq]
  by_cases h : s.prevModelCount = (fillLoop [] frameInfo.sceneObjects).length
  · simp [h]
  · rw [if_pos h, rebuild_eq MAX_FRAMES_IN_FLIGHT _ frameInfo hnd rfl]
    simp

theorem renderSceneObjects_spec (MAX_FRAMES_IN_FLIGHT : Nat) (s : TextureRenderSystem)
    (frameInfo : FrameInfo) (hnd : (frameInfo.sceneObjects.map Prod.fst).Nodup)
    (hp : s.wrpPipeline.isSome = true)
    (hf : frameInfo.frameIndex < s.systemDescriptorSets.length) :
    ∃ s1 head draws, s.refresh MAX_FRAMES_IN_FLIGHT frameInfo = some s1 ∧
      drawObjects frameInfo.sceneObjects 0 (fillLoop [] frameInfo.sceneObjects) = some draws ∧
      pushedTextureIndices head = [] ∧
      s.renderSceneObjects MAX_FRAMES_IN_FLIGHT frameInfo = some (s1, head ++ draws) := by
  obtain ⟨s1, hs1, hids, hlen, hpipe⟩ := refresh_spec MAX_FRAMES_IN_FLIGHT s frameInfo hnd
  obtain ⟨draws, hd, -⟩ := drawObjects_fill hnd
  obtain ⟨pipeline, hpl⟩ := Option.isSome_iff_exists.mp (hpipe hp)
  have hf1 : frameInfo.frameIndex < s1.systemDescriptorSets.length := by omega
  refine ⟨s1, [Cmd.bindPipeline pipeline,
    Cmd.bindDescriptorSets s1.pipelineLayout frameInfo.globalDescriptorSet
      (s1.systemDescriptorSets.get ⟨frameInfo.frameIndex, hf1⟩)], draws, hs1, hd, rfl, ?_⟩
  unfold TextureRenderSystem.renderSceneObjects
  simp only [hs1, hpl, hids, hd, List.getElem?_eq_getElem hf1]
  rfl

/-! ## Claims -/

/-- C2. In the sub-mesh loop of `renderSceneObjects`, for every running texture offset, every
value of the `push` struct left by earlier iterations and every sub-mesh list, the push made
for a sub-mesh whose `diffuseTextureIndex` is `-1` carries `textureIndex = -1`. -/
theorem drawSubMeshes_sentinel (textureIndexOffset : Int)
    (push : TextureSystemPushConstantData) (subMeshes : List SubMeshInfo) (j : Nat)
    (hj : j < subMeshes.length)
    (hd : (subMeshes.get ⟨j, hj⟩).diffuseTextureIndex = -1) :
    (pushedTextureIndices (drawSubMeshes textureIndexOffset push subMeshes))[j]?
      = some (-1) := by
  rw [pushedTextureIndices_drawSubMeshes, List.getElem?_map, List.getElem?_eq_getElem hj]
  have hd' : subMeshes[j].diffuseTextureIndex = -1 := hd
  simp [hd']

/-- C2, instance: the second of three sub-mesh pushes, with offset 4. -/
theorem drawSubMeshes_sentinel_witness :
    (pushedTextureIndices
        (drawSubMeshes 4
          { modelMatrix := 0, normalMatrix := 0, textureIndex := 9, diffuseColor := 0 }
          exampleSubMeshes))[1]? = some (-1) :=
  drawSubMeshes_sentinel 4 _ exampleSubMeshes 1 (by decide) (by decide)

/-! ## Lemmas: the state after the constructor and after a frame -/

theorem fillLoop_length (sceneObjects : SceneObject.Map) :
    (fillLoop [] sceneObjects).length = (eligibleObjects sceneObjects).length := by
  simp [fillLoop_eq, eligibleObjects]

theorem textureArrayLength_built (n : Nat) :
    WrpDescriptorSetLayout.textureArrayLength
        { bindings :=
            if n ≠ 0 then [{ binding := 0,
                             descriptorType := VkDescriptorType.COMBINED_IMAGE_SAMPLER,
                             count := n }]
            else [] } = n := by
  by_cases h : n = 0
  · simp [WrpDescriptorSetLayout.textureArrayLength, h]
  · simp [WrpDescriptorSetLayout.textureArrayLength, h]

theorem renderSceneObjects_state (MAX_FRAMES_IN_FLIGHT : Nat) (s : TextureRenderSystem)
    (frameInfo : FrameInfo) (hnd : (frameInfo.sceneObjects.map Prod.fst).Nodup)
    (hp : s.wrpPipeline.isSome = true)
    (hf : frameInfo.frameIndex < s.systemDescriptorSets.length) :
    (s.renderSceneObjects MAX_FRAMES_IN_FLIGHT frameInfo).map Prod.fst
      = s.refresh MAX_FRAMES_IN_FLIGHT frameInfo := by
  obtain ⟨s1, head, draws, hs1, -, -, hr⟩ :=
    renderSceneObjects_spec MAX_FRAMES_IN_FLIGHT s frameInfo hnd hp hf
  rw [hr, hs1]
  rfl

theorem construct_eq (MAX_FRAMES_IN_FLIGHT globalSetLayout swapChainRenderPass : Nat)
    (templateFrag : Option Text) (generatedFrag : Text) (frameInfo : FrameInfo) :
    TextureRenderSystem.construct MAX_FRAMES_IN_FLIGHT globalSetLayout swapChainRenderPass
        templateFrag generatedFrag frameInfo
      = TextureRenderSystem.rebuild MAX_FRAMES_IN_FLIGHT
          { TextureRenderSystem.initial MAX_FRAMES_IN_FLIGHT globalSetLayout
              swapChainRenderPass templateFrag generatedFrag with
            modelObjectsIds := fillLoop [] frameInfo.sceneObjects
            prevModelCount := (fillLoop [] frameInfo.sceneObjects).length } frameInfo := rfl

/-- C3, as the code has it. After construction the texture-array length of the system's
descriptor-set layout equals the total texture count of the eligible objects. After a call of
`renderSceneObjects` it equals the total texture count of the currently eligible objects when
the number of eligible objects differs from the stored count, and it is what it was before
the call when that number is the same. -/
theorem textureArrayLength_after (MAX_FRAMES_IN_FLIGHT globalSetLayout swapChainRenderPass : Nat)
    (templateFrag : Option Text) (generatedFrag : Text) (frame0 : FrameInfo)
    (s : TextureRenderSystem) (frameInfo : FrameInfo)
    (hnd0 : (frame0.sceneObjects.map Prod.fst).Nodup)
    (hnd : (frameInfo.sceneObjects.map Prod.fst).Nodup)
    (hp : s.wrpPipeline.isSome = true)
    (hf : frameInfo.frameIndex < s.systemDescriptorSets.length) :
    (TextureRenderSystem.construct MAX_FRAMES_IN_FLIGHT globalSetLayout swapChainRenderPass
        templateFrag generatedFrag frame0).map
        (fun s0 => s0.systemDescriptorSetLayout.map
          WrpDescriptorSetLayout.textureArrayLength)
      = some (some (totalTextureCount frame0.sceneObjects)) ∧
    (s.renderSceneObjects MAX_FRAMES_IN_FLIGHT frameInfo).map
        (fun r => r.1.systemDescriptorSetLayout.map
          WrpDescriptorSetLayout.textureArrayLength)
      = some (if s.prevModelCount = (eligibleObjects frameInfo.sceneObjects).length then
                s.systemDescriptorSetLayout.map WrpDescriptorSetLayout.textureArrayLength
              else some (totalTextureCount frameInfo.sceneObjects)) := by
  constructor
  · rw [construct_eq, rebuild_eq MAX_FRAMES_IN_FLIGHT _ frame0 hnd0 rfl]
    simp only [Option.map_some', textureArrayLength_built]
  · have hst := renderSceneObjects_state MAX_FRAMES_IN_FLIGHT s frameInfo hnd hp hf
    have hmap : (s.renderSceneObjects MAX_FRAMES_IN_FLIGHT frameInfo).map
          (fun r => r.1.systemDescriptorSetLayout.map
            WrpDescriptorSetLayout.textureArrayLength)
        = ((s.renderSceneObjects MAX_FRAMES_IN_FLIGHT frameInfo).map Prod.fst).map
          (fun s1 => s1.systemDescriptorSetLayout.map
            WrpDescriptorSetLayout.textureArrayLength) := by
      rw [Option.map_map]
      rfl
    rw [hmap, hst, refresh_eq, fillLoop_length]
    by_cases h : s.prevModelCount = (eligibleObjects frameInfo.sceneObjects).length
    · simp [h]
    · rw [if_pos h, rebuild_eq MAX_FRAMES_IN_FLIGHT _ frameInfo hnd rfl]
      simp only [Option.map_some', textureArrayLength_built, if_neg h]

/-- C3, counterexample: a system built on object A (2 textures) renders a scene holding
object B (1 texture) instead; one object is eligible before and after, nothing is rebuilt, and
the layout keeps array length 2 while the eligible objects now have 1 texture. -/
theorem textureArrayLength_stale :
    ((TextureRenderSystem.construct 2 0 0 (some exampleTemplate) [] frameA).bind
        fun s => s.renderSceneObjects 2 frameB).map
        (fun r => r.1.systemDescriptorSetLayout.map
          WrpDescriptorSetLayout.textureArrayLength)
      = some (some 2) ∧
    totalTextureCount frameB.sceneObjects = 1 := by
  decide

/-- C3, instance: the system built on A and B renders a scene holding A only; the eligible
count changes from 2 to 1, and the layout's array length becomes 2, the texture count of A. -/
theorem textureArrayLength_after_witness :
    ((frameAB.sceneObjects.map Prod.fst).Nodup ∧ (frameA.sceneObjects.map Prod.fst).Nodup ∧
      systemAB.wrpPipeline.isSome = true ∧
      frameA.frameIndex < systemAB.systemDescriptorSets.length) ∧
    (TextureRenderSystem.construct 2 0 0 (some exampleTemplate) [] frameAB).map
        (fun s0 => s0.systemDescriptorSetLayout.map
          WrpDescriptorSetLayout.textureArrayLength) = some (some 3) ∧
    (systemAB.renderSceneObjects 2 frameA).map
        (fun r => r.1.systemDescriptorSetLayout.map
          WrpDescriptorSetLayout.textureArrayLength) = some (some 2) :=
  ⟨⟨by decide, by decide, by decide, by decide⟩,
   (textureArrayLength_after 2 0 0 (some exampleTemplate) [] frameAB systemAB frameA
      (by decide) (by decide) (by decide) (by decide)).1.trans (by decide),
   (textureArrayLength_after 2 0 0 (some exampleTemplate) [] frameAB systemAB frameA
      (by decide) (by decide) (by decide) (by decide)).2.trans (by decide)⟩

/-- C4. `renderSceneObjects` performs the rebuild sequence once when the count returned by
`fillModelsIds` differs from the stored count and not at all when it is equal; afterwards the
stored count is the new count; a second call on the same object set makes no further call.
The constructor performs the sequence once and stores the count of its scene. -/
theorem renderSceneObjects_rebuilds (MAX_FRAMES_IN_FLIGHT globalSetLayout swapChainRenderPass : Nat)
    (templateFrag : Option Text) (generatedFrag : Text) (frame0 : FrameInfo)
    (s : TextureRenderSystem) (frameInfo next : FrameInfo)
    (hnd0 : (frame0.sceneObjects.map Prod.fst).Nodup)
    (hnd : (frameInfo.sceneObjects.map Prod.fst).Nodup)
    (hp : s.wrpPipeline.isSome = true)
    (hf : frameInfo.frameIndex < s.systemDescriptorSets.length)
    (hsame : next.sceneObjects = frameInfo.sceneObjects)
    (hf2 : next.frameIndex < s.systemDescriptorSets.length) :
    (TextureRenderSystem.construct MAX_FRAMES_IN_FLIGHT globalSetLayout swapChainRenderPass
        templateFrag generatedFrag frame0).map (fun s0 => (s0.calls, s0.prevModelCount))
      = some (rebuildCalls (totalTextureCount frame0.sceneObjects),
              (eligibleObjects frame0.sceneObjects).length) ∧
    (s.renderSceneObjects MAX_FRAMES_IN_FLIGHT frameInfo).map
        (fun r => (r.1.calls, r.1.prevModelCount))
      = some (s.calls ++
                (if s.prevModelCount = (eligibleObjects frameInfo.sceneObjects).length then []
                 else rebuildCalls (totalTextureCount frameInfo.sceneObjects)),
              (eligibleObjects frameInfo.sceneObjects).length) ∧
    ((s.renderSceneObjects MAX_FRAMES_IN_FLIGHT frameInfo).bind fun r =>
        (r.1.renderSceneObjects MAX_FRAMES_IN_FLIGHT next).map
          fun r2 => (r2.1.calls, r2.1.prevModelCount))
      = some (s.calls ++
                (if s.prevModelCount = (eligibleObjects frameInfo.sceneObjects).length then []
                 else rebuildCalls (totalTextureCount frameInfo.sceneObjects)),
              (eligibleObjects frameInfo.sceneObjects).length) := by
  have key : ∀ (t : TextureRenderSystem) (fi : FrameInfo),
      (fi.sceneObjects.map Prod.fst).Nodup →
      (t.refresh MAX_FRAMES_IN_FLIGHT fi).map
          (fun t1 => (t1.calls, t1.prevModelCount, t1.wrpPipeline.isSome,
            t1.systemDescriptorSets.length))
        = some (t.calls ++
                  (if t.prevModelCount = (eligibleObjects fi.sceneObjects).length then []
                   else rebuildCalls (totalTextureCount fi.sceneObjects)),
                (eligibleObjects fi.sceneObjects).length,
                (if t.prevModelCount = (eligibleObjects fi.sceneObjects).length then
                   t.wrpPipeline.isSome else true),
                t.systemDescriptorSets.length) := by
    intro t fi hfi
    rw [refresh_eq, fillLoop_length]
    by_cases h : t.prevModelCount = (eligibleObjects fi.sceneObjects).length
    · simp [h, fillLoop_length]
    · rw [if_pos h, rebuild_eq MAX_FRAMES_IN_FLIGHT _ fi hfi rfl]
      simp [h, fillLoop_length, rebuildCalls]
  refine ⟨?_, ?_, ?_⟩
  · rw [construct_eq, rebuild_eq MAX_FRAMES_IN_FLIGHT _ frame0 hnd0 rfl]
    simp [fillLoop_length, rebuildCalls, TextureRenderSystem.initial]
  · have hst := renderSceneObjects_state MAX_FRAMES_IN_FLIGHT s frameInfo hnd hp hf
    have hk := key s frameInfo hnd
    rw [← hst] at hk
    cases hr : s.renderSceneObjects MAX_FRAMES_IN_FLIGHT frameInfo with
    | none => simp [hr] at hk
    | some r =>
      simp only [hr, Option.map_some', Option.some.injEq, Prod.mk.injEq] at hk ⊢
      exact ⟨hk.1, hk.2.1⟩
  · have hst := renderSceneObjects_state MAX_FRAMES_IN_FLIGHT s frameInfo hnd hp hf
    have hk := key s frameInfo hnd
    rw [← hst] at hk
    cases hr : s.renderSceneObjects MAX_FRAMES_IN_FLIGHT frameInfo with
    | none => simp [hr] at hk
    | some r =>
      simp only [hr, Option.map_some', Option.some.injEq, Prod.mk.injEq] at hk
      obtain ⟨hcalls, hcount, hpipe, hlen⟩ := hk
      have hp1 : r.1.wrpPipeline.isSome = true := by
        rw [hpipe]
        split
        · exact hp
        · rfl
      have hnd2 : (next.sceneObjects.map Prod.fst).Nodup := by rw [hsame]; exact hnd
      have hf3 : next.frameIndex < r.1.systemDescriptorSets.length := by omega
      have hst2 := renderSceneObjects_state MAX_FRAMES_IN_FLIGHT r.1 next hnd2 hp1 hf3
      have hk2 := key r.1 next hnd2
      rw [← hst2] at hk2
      cases hr2 : r.1.renderSceneObjects MAX_FRAMES_IN_FLIGHT next with
      | none => simp [hr2] at hk2
      | some r2 =>
        simp only [hr2, Option.map_some', Option.some.injEq, Prod.mk.injEq, hsame,
          hcount, if_true, List.append_nil] at hk2
        show (r.1.renderSceneObjects MAX_FRAMES_IN_FLIGHT next).map _ = _
        rw [hr2]
        simp only [Option.map_some', hk2.1, hk2.2.1, hcalls]

/-- C4, scenario: a system built on a scene without textured objects renders a scene with
one object of 3 textures (one rebuild, with shader regeneration for 3), then the same scene
again (no further call). -/
theorem renderSceneObjects_rebuilds_witness :
    ((frameEmpty.sceneObjects.map Prod.fst).Nodup ∧ (frameC.sceneObjects.map Prod.fst).Nodup ∧
      systemEmpty.wrpPipeline.isSome = true ∧
      frameC.frameIndex < systemEmpty.systemDescriptorSets.length ∧
      frameC2.sceneObjects = frameC.sceneObjects ∧
      frameC2.frameIndex < systemEmpty.systemDescriptorSets.length) ∧
    systemEmpty.calls
      = [Call.createDescriptorSets, Call.createPipelineLayout, Call.createPipeline] ∧
    (systemEmpty.renderSceneObjects 2 frameC).map (fun r => (r.1.calls, r.1.prevModelCount))
      = some (systemEmpty.calls ++
                [Call.createDescriptorSets, Call.rewriteAndRecompileFragShader 3,
                 Call.createPipelineLayout, Call.createPipeline], 1) ∧
    ((systemEmpty.renderSceneObjects 2 frameC).bind fun r =>
        (r.1.renderSceneObjects 2 frameC2).map fun r2 => (r2.1.calls, r2.1.prevModelCount))
      = some (systemEmpty.calls ++
                [Call.createDescriptorSets, Call.rewriteAndRecompileFragShader 3,
                 Call.createPipelineLayout, Call.createPipeline], 1) :=
  ⟨⟨by decide, by decide, by decide, by decide, by decide, by decide⟩, by decide,
   (renderSceneObjects_rebuilds 2 0 0 (some exampleTemplate) [] frameEmpty systemEmpty frameC
      frameC2 (by decide) (by decide) (by decide) (by decide) (by decide)
      (by decide)).2.1.trans (by decide),
   (renderSceneObjects_rebuilds 2 0 0 (some exampleTemplate) [] frameEmpty systemEmpty frameC
      frameC2 (by decide) (by decide) (by decide) (by decide) (by decide)
      (by decide)).2.2.trans (by decide)⟩

theorem length_imageInfosOf (obj : SceneObject) :
    (imageInfosOf obj).length = textureCount obj := by
  unfold imageInfosOf textureCount
  cases obj.model <;> simp

theorem length_imageInfos (sceneObjects : SceneObject.Map) :
    ((eligibleObjects sceneObjects).flatMap imageInfosOf).length
      = totalTextureCount sceneObjects := by
  unfold totalTextureCount
  induction eligibleObjects sceneObjects with
  | nil => rfl
  | cons o rest ih => simp [length_imageInfosOf, ih]

/-- C5. `createDescriptorSets`, run on the ids that `fillModelsIds` has just stored, shapes
the pool and the layout from the total texture count `n` of the eligible objects: the pool
allows `MAX_FRAMES_IN_FLIGHT` sets; with `n = 0` there is no pool size, no binding and no image
write; with `n > 0` there is one combined-image-sampler pool size of
`MAX_FRAMES_IN_FLIGHT * n`, one binding 0 of array length `n`, and each of the
`MAX_FRAMES_IN_FLIGHT` descriptor sets receives one write of the `n` image infos. -/
theorem createDescriptorSets_shape (MAX_FRAMES_IN_FLIGHT : Nat) (s : TextureRenderSystem)
    (frameInfo : FrameInfo) (hnd : (frameInfo.sceneObjects.map Prod.fst).Nodup)
    (hlen : s.systemDescriptorSets.length = MAX_FRAMES_IN_FLIGHT) :
    ((s.fillModelsIds frameInfo.sceneObjects).1.createDescriptorSets
        MAX_FRAMES_IN_FLIGHT frameInfo).map
        (fun s1 => (s1.systemDescriptorPool, s1.systemDescriptorSetLayout,
          s1.systemDescriptorSets))
      = some
          (some { maxSets := MAX_FRAMES_IN_FLIGHT
                  poolSizes :=
                    if totalTextureCount frameInfo.sceneObjects = 0 then []
                    else [(VkDescriptorType.COMBINED_IMAGE_SAMPLER,
                            MAX_FRAMES_IN_FLIGHT * totalTextureCount frameInfo.sceneObjects)] },
           some { bindings :=
                    if totalTextureCount frameInfo.sceneObjects = 0 then []
                    else [{ binding := 0
                            descriptorType := VkDescriptorType.COMBINED_IMAGE_SAMPLER
                            count := totalTextureCount frameInfo.sceneObjects }] },
           List.replicate MAX_FRAMES_IN_FLIGHT
             (some { writes :=
                       if totalTextureCount frameInfo.sceneObjects = 0 then []
                       else [{ binding := 0
                               imageInfos :=
                                 (eligibleObjects frameInfo.sceneObjects).flatMap imageInfosOf
                               count := totalTextureCount frameInfo.sceneObjects }] })) ∧
    ((eligibleObjects frameInfo.sceneObjects).flatMap imageInfosOf).length
      = totalTextureCount frameInfo.sceneObjects := by
  refine ⟨?_, length_imageInfos _⟩
  unfold TextureRenderSystem.createDescriptorSets TextureRenderSystem.fillModelsIds
  simp only [gatherTextures_fill hnd]
  by_cases h : totalTextureCount frameInfo.sceneObjects = 0
  · simp [h, ← hlen, List.map_const']
  · simp [h, ← hlen, List.map_const', TextureRenderSystem.rewriteAndRecompileFragShader]

/-- C5, instance: the header-initialised object (two null descriptor sets) on the scene of A
and B: pool of 2 sets with 2 * 3 samplers, binding 0 of length 3, two sets written with the
three image infos. -/
theorem createDescriptorSets_shape_witness :
    ((frameAB.sceneObjects.map Prod.fst).Nodup ∧
      (TextureRenderSystem.initial 2 0 0 (some exampleTemplate) []).systemDescriptorSets.length
        = 2) ∧
    (((TextureRenderSystem.initial 2 0 0 (some exampleTemplate) []).fillModelsIds
        frameAB.sceneObjects).1.createDescriptorSets 2 frameAB).map
        (fun s1 => (s1.systemDescriptorPool, s1.systemDescriptorSetLayout,
          s1.systemDescriptorSets))
      = some
          (some { maxSets := 2, poolSizes := [(VkDescriptorType.COMBINED_IMAGE_SAMPLER, 6)] },
           some { bindings := [{ binding := 0
                                 descriptorType := VkDescriptorType.COMBINED_IMAGE_SAMPLER
                                 count := 3 }] },
           [some { writes := [{ binding := 0, imageInfos := [10, 11, 20], count := 3 }] },
            some { writes := [{ binding := 0, imageInfos := [10, 11, 20], count := 3 }] }]) :=
  ⟨⟨by decide, by decide⟩,
   (createDescriptorSets_shape 2 (TextureRenderSystem.initial 2 0 0 (some exampleTemplate) [])
      frameAB (by decide) (by decide)).1.trans (by decide)⟩

/-- C6, evaluation at the failing input: a system built on object B (1 texture) renders a
scene without textured objects. The rebuild computes 0 textures, the new layout has no
binding, and the fragment shader module given to the new pipeline is still the module
generated for count 1, whose source has the `TEXTURES` define and the sampler array. -/
theorem fragShaderModule_stale :
    ((TextureRenderSystem.construct 2 0 0 (some exampleTemplate) [] frameB).bind
        fun s => s.renderSceneObjects 2 frameEmpty).map
        (fun r => (r.1.calls, r.1.systemDescriptorSetLayout,
          r.1.wrpPipeline.map fun p => p.fragShaderModule))
      = some
          ([Call.createDescriptorSets, Call.rewriteAndRecompileFragShader 1,
            Call.createPipelineLayout, Call.createPipeline,
            Call.createDescriptorSets, Call.createPipelineLayout, Call.createPipeline],
           some { bindings := [] },
           some (some { source := buildShaderContent 1 false (some exampleTemplate) })) ∧
    getlines (buildShaderContent 1 false (some exampleTemplate))
      = ["#version 450".toList, "#define TEXTURES_COUNT 1".toList, texturesDefineLine,
         samplerArrayLine, "void main() \x7b\x7d".toList] := by
  decide

/-! ## Lemmas: text and the line loop -/

theorem getlines_no_newline (t : Text) : ∀ l ∈ getlines t, '\n' ∉ l := by
  induction t with
  | nil => simp [getlines]
  | cons c cs ih =>
    intro l hl
    unfold getlines at hl
    by_cases hc : c = '\n'
    · simp only [hc, if_true, List.mem_cons] at hl
      rcases hl with rfl | hl
      · simp
      · exact ih l hl
    · simp only [hc, if_false] at hl
      cases hg : getlines cs with
      | nil =>
        simp only [hg, List.mem_singleton] at hl
        subst hl
        simpa using Ne.symm hc
      | cons l0 ls =>
        simp only [hg, List.mem_cons] at hl
        have ih0 := ih l0 (by simp [hg])
        rcases hl with rfl | hl
        · simp only [List.mem_cons, not_or]
          exact ⟨Ne.symm hc, ih0⟩
        · exact ih l (by simp [hg, hl])

theorem getlines_append_newline (l : Text) (hl : '\n' ∉ l) (rest : Text) :
    getlines (l ++ '\n' :: rest) = l :: getlines rest := by
  induction l with
  | nil => simp [getlines]
  | cons c l ih =>
    simp only [List.mem_cons, not_or] at hl
    have hc : c ≠ '\n' := Ne.symm hl.1
    rw [List.cons_append, getlines, if_neg hc, ih hl.2]

theorem getlines_unlines (ls : List Text) (h : ∀ l ∈ ls, '\n' ∉ l) :
    getlines (unlines ls) = ls := by
  induction ls with
  | nil => rfl
  | cons l ls ih =>
    simp only [unlines]
    rw [getlines_append_newline l (h l (List.mem_cons_self _ _)),
      ih (fun x hx => h x (List.mem_cons_of_mem _ hx))]

theorem unlines_append (a b : List Text) : unlines (a ++ b) = unlines a ++ unlines b := by
  induction a with
  | nil => rfl
  | cons l ls ih => simp [unlines, ih]

theorem digitChar_mod_ten_ne_newline (n : Nat) : Nat.digitChar (n % 10) ≠ '\n' := by
  have h : n % 10 < 10 := Nat.mod_lt _ (by decide)
  generalize n % 10 = d at h
  interval_cases d <;> decide

theorem toDigitsCore_no_newline (fuel n : Nat) (ds : List Char) (h : '\n' ∉ ds) :
    '\n' ∉ Nat.toDigitsCore 10 fuel n ds := by
  induction fuel generalizing n ds with
  | zero => simpa [Nat.toDigitsCore] using h
  | succ fuel ih =>
    have hcons : '\n' ∉ Nat.digitChar (n % 10) :: ds := by
      simp only [List.mem_cons, not_or]
      exact ⟨Ne.symm (digitChar_mod_ten_ne_newline _), h⟩
    simp only [Nat.toDigitsCore]
    split
    · exact hcons
    · exact ih _ _ hcons

theorem toDigits_no_newline (n : Nat) : '\n' ∉ Nat.toDigits 10 n :=
  toDigitsCore_no_newline (n + 1) n [] (by simp)

theorem foldl_rewriteStep_nomatch (n : Nat) (flag : Bool) (st : RewriteState)
    (ls : List Text) (h : ∀ x ∈ ls, ¬ st.macros <:+: x) :
    ls.foldl (rewriteStep n flag) st
      = { macros := st.macros, shaderContent := st.shaderContent ++ unlines ls } := by
  induction ls generalizing st with
  | nil => simp [unlines]
  | cons l ls ih =>
    have hl := h l (List.mem_cons_self _ _)
    have hstep : rewriteStep n flag st l
        = { macros := st.macros, shaderContent := st.shaderContent ++ (l ++ ['\n']) } := by
      unfold rewriteStep
      rw [if_neg hl]
    rw [List.foldl_cons, hstep,
      ih { macros := st.macros, shaderContent := st.shaderContent ++ (l ++ ['\n']) }
        (fun x hx => h x (List.mem_cons_of_mem _ hx))]
    simp [unlines]

/-- The content built from lines of which exactly one contains `macros`. -/
theorem foldl_rewriteStep_sentinel (n : Nat) (flag : Bool) (macros : Text)
    (pre post : List Text) (l : Text) (hl : macros <:+: l)
    (hpre : ∀ x ∈ pre, ¬ macros <:+: x) (hpost : ∀ x ∈ post, ¬ macros <:+: x) :
    ((pre ++ l :: post).foldl (rewriteStep n flag)
        { macros := macros, shaderContent := [] }).shaderContent
      = unlines (pre ++ (macros ++ Nat.toDigits 10 n) ::
          ((if flag = true then [] else [texturesDefineLine, samplerArrayLine]) ++ post)) := by
  have hpost' : ∀ x ∈ post, ¬ (macros ++ Nat.toDigits 10 n) <:+: x := by
    intro x hx hin
    exact hpost x hx ((List.prefix_append _ _).isInfix.trans hin)
  have hstep : rewriteStep n flag { macros := macros, shaderContent := unlines pre } l
      = { macros := macros ++ Nat.toDigits 10 n,
          shaderContent := unlines pre ++ unlines ((macros ++ Nat.toDigits 10 n) ::
            (if flag = true then [] else [texturesDefineLine, samplerArrayLine])) } := by
    unfold rewriteStep
    rw [if_pos hl]
    cases flag <;> simp [unlines]
  rw [List.foldl_append,
    foldl_rewriteStep_nomatch n flag { macros := macros, shaderContent := [] } pre hpre,
    List.foldl_cons]
  show (List.foldl (rewriteStep n flag)
    (rewriteStep n flag { macros := macros, shaderContent := unlines pre } l)
    post).shaderContent = _
  rw [hstep, foldl_rewriteStep_nomatch n flag _ post hpost']
  simp only [unlines_append, unlines, List.append_assoc, List.cons_append]

theorem buildShaderContent_lines (n : Nat) (flag : Bool) (file : Text)
    (pre post : List Text) (l : Text) (hlines : getlines file = pre ++ l :: post)
    (hl : macrosPrefix <:+: l)
    (hpre : ∀ x ∈ pre, ¬ macrosPrefix <:+: x) (hpost : ∀ x ∈ post, ¬ macrosPrefix <:+: x) :
    getlines (buildShaderContent n flag (some file))
      = pre ++ (macrosPrefix ++ Nat.toDigits 10 n) ::
          ((if flag = true then [] else [texturesDefineLine, samplerArrayLine]) ++ post) := by
  have hfile := getlines_no_newline file
  rw [hlines] at hfile
  unfold buildShaderContent
  simp only [hlines]
  rw [foldl_rewriteStep_sentinel n flag macrosPrefix pre post l hl hpre hpost]
  apply getlines_unlines
  intro x hx
  simp only [List.mem_append, List.mem_cons] at hx
  rcases hx with hx | rfl | hx | hx
  · exact hfile x (by simp [hx])
  · simp only [List.mem_append, not_or]
    exact ⟨by decide, toDigits_no_newline n⟩
  · cases flag
    · simp only [Bool.false_eq_true, if_false, List.mem_cons, List.mem_singleton,
        List.not_mem_nil, or_false] at hx
      rcases hx with rfl | rfl <;> decide
    · simp at hx
  · exact hfile x (by simp [hx])

theorem sentinel_ne_texturesDefineLine (n : Nat) :
    macrosPrefix ++ Nat.toDigits 10 n ≠ texturesDefineLine := by
  intro h
  have hlen := congrArg List.length h
  have h1 : macrosPrefix.length = 23 := by decide
  have h2 : texturesDefineLine.length = 16 := by decide
  rw [List.length_append, h1, h2] at hlen
  omega

theorem sentinel_ne_samplerArrayLine (n : Nat) :
    macrosPrefix ++ Nat.toDigits 10 n ≠ samplerArrayLine := by
  intro h
  have hhead := congrArg List.head? h
  have h1 : (macrosPrefix ++ Nat.toDigits 10 n).head? = some '#' := rfl
  have h2 : samplerArrayLine.head? = some 'l' := by decide
  rw [h1, h2] at hhead
  exact absurd hhead (by decide)

/-- C7, as the code has it. For a template with exactly one line in which the sentinel text
`#define TEXTURES_COUNT ` occurs anywhere, and no line equal to the `TEXTURES` define or to
the sampler-array declaration, after two runs of `rewriteAndRecompileFragShader` in a row (counts `a` then `b`,
the static flag having its initial value) the generated shader text has the `#define TEXTURES`
line exactly once and the sampler-array declaration line exactly once. -/
theorem generated_injected_once (s : TextureRenderSystem) (file : Text)
    (pre post : List Text) (l : Text) (a b : Nat)
    (htmpl : s.templateFrag = some file) (hflag : s.isTexturesDefined = false)
    (hlines : getlines file = pre ++ l :: post) (hl : macrosPrefix <:+: l)
    (hpre : ∀ x ∈ pre, ¬ macrosPrefix <:+: x) (hpost : ∀ x ∈ post, ¬ macrosPrefix <:+: x)
    (hdef : texturesDefineLine ∉ getlines file) (hsam : samplerArrayLine ∉ getlines file) :
    (getlines ((s.rewriteAndRecompileFragShader a).rewriteAndRecompileFragShader
        b).generatedFrag).count texturesDefineLine = 1 ∧
    (getlines ((s.rewriteAndRecompileFragShader a).rewriteAndRecompileFragShader
        b).generatedFrag).count samplerArrayLine = 1 := by
  have hgen : ((s.rewriteAndRecompileFragShader a).rewriteAndRecompileFragShader
      b).generatedFrag = buildShaderContent b false (some file) := by
    simp [TextureRenderSystem.rewriteAndRecompileFragShader, htmpl, hflag]
  rw [hgen, buildShaderContent_lines b false file pre post l hlines hl hpre hpost]
  rw [hlines] at hdef hsam
  simp only [List.mem_append, List.mem_cons, not_or] at hdef hsam
  have hds : texturesDefineLine ≠ samplerArrayLine := by decide
  have h1 := sentinel_ne_texturesDefineLine b
  have h2 := sentinel_ne_samplerArrayLine b
  constructor
  · simp [List.count_append, List.count_cons, List.count_eq_zero.mpr hdef.1,
      List.count_eq_zero.mpr hdef.2.2, h1, hds.symm]
  · simp [List.count_append, List.count_cons, List.count_eq_zero.mpr hsam.1,
      List.count_eq_zero.mpr hsam.2.2, h2, hds]

/-- C7, instance: counts 3 then 5 on the example template. -/
theorem generated_injected_once_witness :
    (getlines (((TextureRenderSystem.initial 2 0 0 (some exampleTemplate)
        []).rewriteAndRecompileFragShader 3).rewriteAndRecompileFragShader
        5).generatedFrag).count texturesDefineLine = 1 ∧
    (getlines (((TextureRenderSystem.initial 2 0 0 (some exampleTemplate)
        []).rewriteAndRecompileFragShader 3).rewriteAndRecompileFragShader
        5).generatedFrag).count samplerArrayLine = 1 :=
  generated_injected_once (TextureRenderSystem.initial 2 0 0 (some exampleTemplate) [])
    exampleTemplate ["#version 450".toList] ["void main() \x7b\x7d".toList]
    "#define TEXTURES_COUNT 1".toList 3 5 rfl rfl (by decide) (by decide) (by decide)
    (by decide) (by decide) (by decide)

/-- C8, as the code has it. For a template with exactly one line that contains the text
`#define TEXTURES_COUNT ` anywhere, and every count `n`, the text written by
`rewriteAndRecompileFragShader` has that line replaced by exactly
`#define TEXTURES_COUNT <n in decimal>`, followed by the two injected lines unless the static
flag is set, and every other line of the template unchanged and in its original order. -/
theorem rewrite_replaces_sentinel (s : TextureRenderSystem) (file : Text)
    (pre post : List Text) (l : Text) (n : Nat)
    (htmpl : s.templateFrag = some file)
    (hlines : getlines file = pre ++ l :: post) (hl : macrosPrefix <:+: l)
    (hpre : ∀ x ∈ pre, ¬ macrosPrefix <:+: x) (hpost : ∀ x ∈ post, ¬ macrosPrefix <:+: x) :
    getlines (s.rewriteAndRecompileFragShader n).generatedFrag
      = pre ++ (macrosPrefix ++ Nat.toDigits 10 n) ::
          ((if s.isTexturesDefined = true then []
            else [texturesDefineLine, samplerArrayLine]) ++ post) := by
  have hgen : (s.rewriteAndRecompileFragShader n).generatedFrag
      = buildShaderContent n s.isTexturesDefined (some file) := by
    simp [TextureRenderSystem.rewriteAndRecompileFragShader, htmpl]
  rw [hgen, buildShaderContent_lines n s.isTexturesDefined file pre post l hlines hl hpre hpost]

/-- C8, instance: count 3 on the example template. -/
theorem rewrite_replaces_sentinel_witness :
    getlines ((TextureRenderSystem.initial 2 0 0 (some exampleTemplate)
        []).rewriteAndRecompileFragShader 3).generatedFrag
      = ["#version 450".toList, "#define TEXTURES_COUNT 3".toList, texturesDefineLine,
         samplerArrayLine, "void main() \x7b\x7d".toList] :=
  (rewrite_replaces_sentinel (TextureRenderSystem.initial 2 0 0 (some exampleTemplate) [])
    exampleTemplate ["#version 450".toList] ["void main() \x7b\x7d".toList]
    "#define TEXTURES_COUNT 1".toList 3 rfl (by decide) (by decide) (by decide)
    (by decide)).trans (by decide)

/-- C8, counterexample: the template has exactly one line beginning with
`#define TEXTURES_COUNT ` (its second line) and a first line holding that text in a comment.
With count 3 the code rewrites the first line and leaves the second line as it was. -/
theorem sentinel_matched_inside_line :
    getlines commentedTemplate
      = ["// #define TEXTURES_COUNT 0".toList, "#define TEXTURES_COUNT 0".toList] ∧
    ¬ macrosPrefix <+: "// #define TEXTURES_COUNT 0".toList ∧
    macrosPrefix <+: "#define TEXTURES_COUNT 0".toList ∧
    getlines ((TextureRenderSystem.initial 2 0 0 (some commentedTemplate)
        []).rewriteAndRecompileFragShader 3).generatedFrag
      = ["#define TEXTURES_COUNT 3".toList, texturesDefineLine, samplerArrayLine,
         "#define TEXTURES_COUNT 0".toList] := by
  decide

/-- C9. After `fillModelsIds`, whatever `modelObjectsIds` held before, the list holds exactly
the ids of the objects whose model is non-null and has textures, in iteration order, each
once, and the returned value is the length of the list. -/
theorem fillModelsIds_spec (s : TextureRenderSystem) (sceneObjects : SceneObject.Map)
    (hnd : (sceneObjects.map Prod.fst).Nodup) :
    (∀ id, id ∈ (s.fillModelsIds sceneObjects).1.modelObjectsIds ↔
        ∃ obj model, (id, obj) ∈ sceneObjects ∧ obj.model = some model ∧
          model.hasTextures = true) ∧
    (s.fillModelsIds sceneObjects).1.modelObjectsIds.Nodup ∧
    (s.fillModelsIds sceneObjects).1.modelObjectsIds
      = (sceneObjects.filter fun kv => eligible kv.2).map Prod.fst ∧
    (s.fillModelsIds sceneObjects).2
      = (s.fillModelsIds sceneObjects).1.modelObjectsIds.length := by
  have hids : (s.fillModelsIds sceneObjects).1.modelObjectsIds
      = (sceneObjects.filter fun kv => eligible kv.2).map Prod.fst := by
    simp [TextureRenderSystem.fillModelsIds, fillLoop_eq]
  refine ⟨?_, ?_, hids, rfl⟩
  · intro id
    rw [hids]
    simp only [List.mem_map, List.mem_filter, Prod.exists, exists_and_right, exists_eq_right]
    constructor
    · rintro ⟨obj, hmem, hel⟩
      obtain ⟨m, hm⟩ := eligible_model hel
      refine ⟨obj, m, hmem, hm, ?_⟩
      simpa [eligible, hm] using hel
    · rintro ⟨obj, m, hmem, hm, hh⟩
      exact ⟨obj, hmem, by simp [eligible, hm, hh]⟩
  · rw [hids]
    exact hnd.sublist (List.Sublist.map _ (List.filter_sublist _))

/-- C9, instance: the system built on A and B (ids 1 and 2 stored) is given a scene with an
object without a model and object C; the list becomes `[3]` and 1 is returned. -/
theorem fillModelsIds_spec_witness :
    (frameC.sceneObjects.map Prod.fst).Nodup ∧
    systemAB.modelObjectsIds = [1, 2] ∧
    (systemAB.fillModelsIds frameC.sceneObjects).1.modelObjectsIds = [3] ∧
    (systemAB.fillModelsIds frameC.sceneObjects).2 = 1 :=
  ⟨by decide, by decide,
   (fillModelsIds_spec systemAB frameC.sceneObjects (by decide)).2.2.1.trans (by decide),
   (fillModelsIds_spec systemAB frameC.sceneObjects (by decide)).2.2.2.trans (by decide)⟩

/-- C10. With the frame index inside `commandBuffers`, `getFrameIndex` and
`getCurrentCommandBuffer` succeed if and only if `isFrameStarted` is true; when they succeed
they return `currentFrameIndex` and the command buffer stored at that position, and the
renderer after the call is the renderer before it. -/
theorem accessors_spec (r : WrpRenderer) (h0 : 0 ≤ r.currentFrameIndex)
    (hlt : r.currentFrameIndex.toNat < r.commandBuffers.length) :
    (r.getFrameIndex.isSome = true ↔ r.isFrameStarted = true) ∧
    (r.getCurrentCommandBuffer.isSome = true ↔ r.isFrameStarted = true) ∧
    r.getFrameIndex
      = (if r.isFrameStarted = true then some (r.currentFrameIndex, r) else none) ∧
    r.getCurrentCommandBuffer
      = (if r.isFrameStarted = true then
           some (r.commandBuffers.get ⟨r.currentFrameIndex.toNat, hlt⟩, r)
         else none) := by
  have hbuf : r.commandBuffers[r.currentFrameIndex.toNat]?
      = some (r.commandBuffers.get ⟨r.currentFrameIndex.toNat, hlt⟩) :=
    List.getElem?_eq_getElem hlt
  unfold WrpRenderer.getFrameIndex WrpRenderer.getCurrentCommandBuffer
  cases hs : r.isFrameStarted <;> simp [h0, hbuf]

/-- C10, instance: in a frame at index 1 of two command buffers, the accessors return 1 and
the second buffer and leave the renderer as it was. -/
theorem accessors_spec_witness :
    (0 ≤ rendererInFrame.currentFrameIndex ∧
      rendererInFrame.currentFrameIndex.toNat < rendererInFrame.commandBuffers.length) ∧
    rendererInFrame.getFrameIndex = some (1, rendererInFrame) ∧
    rendererInFrame.getCurrentCommandBuffer = some (101, rendererInFrame) :=
  ⟨⟨by decide, by decide⟩,
   (accessors_spec rendererInFrame (by decide) (by decide)).2.2.1.trans (by decide),
   (accessors_spec rendererInFrame (by decide) (by decide)).2.2.2.trans (by decide)⟩

/-! ## Lemmas: descriptor array against pushed indices -/

theorem getElem?_concatenated (pre infos rest : List Nat) (d : Nat) (hd : d < infos.length) :
    (pre ++ (infos ++ rest))[pre.length + d]? = infos[d]? := by
  rw [List.getElem?_append_right (Nat.le_add_right _ _), Nat.add_sub_cancel_left,
    List.getElem?_append_left hd]

theorem drawObjects_agree (sceneObjects : SceneObject.Map)
    (es : List (id_t × SceneObject))
    (hes : ∀ e ∈ es, sceneObjects.lookup e.1 = some e.2 ∧ eligible e.2 = true)
    (off : Nat) (pre : List Nat) (hpre : pre.length = off) :
    ∃ cmds, drawObjects sceneObjects (off : Int) (es.map Prod.fst) = some cmds ∧
      List.Forall₂
        (fun (i : Int) (osm : SceneObject × SubMeshInfo) =>
          0 ≤ osm.2.diffuseTextureIndex →
          osm.2.diffuseTextureIndex < (textureCount osm.1 : Int) →
            0 ≤ i ∧ i < ((off + ((es.map Prod.snd).map textureCount).sum : Nat) : Int) ∧
            (pre ++ (es.map Prod.snd).flatMap imageInfosOf)[i.toNat]?
              = (imageInfosOf osm.1)[osm.2.diffuseTextureIndex.toNat]? ∧
            ((imageInfosOf osm.1)[osm.2.diffuseTextureIndex.toNat]?).isSome = true)
        (pushedTextureIndices cmds)
        ((es.map Prod.snd).flatMap fun obj => (subMeshesOf obj).map fun sm => (obj, sm)) := by
  induction es generalizing off pre with
  | nil => exact ⟨[], by simp [drawObjects], by simp [pushedTextureIndices]⟩
  | cons e rest ih =>
    have he := hes e (List.mem_cons_self _ _)
    obtain ⟨m, hm⟩ := eligible_model he.2
    have hinfos : imageInfosOf e.2 = m.textures.map Texture.descriptorInfo := by
      simp [imageInfosOf, hm]
    have htc : textureCount e.2 = m.textures.length := by simp [textureCount, hm]
    obtain ⟨cmds, hc, hall⟩ :=
      ih (fun x hx => hes x (List.mem_cons_of_mem _ hx)) (off + m.textures.length)
        (pre ++ imageInfosOf e.2) (by simp [hinfos, hpre])
    refine ⟨Cmd.bindModel e.1 :: (drawSubMeshes off
      { modelMatrix := e.2.mat4, normalMatrix := e.2.normalMatrix,
        textureIndex := 0, diffuseColor := 0 } m.subMeshes ++ cmds), ?_, ?_⟩
    · have hc' : drawObjects sceneObjects ((off : Int) + (m.textures.length : Int))
          (rest.map Prod.fst) = some cmds := by
        rw [← hc]
        push_cast
        rfl
      simp only [List.map_cons, drawObjects, he.1, hm, hc']
    · simp only [pushedTextureIndices, pushedTextureIndices_append,
        pushedTextureIndices_drawSubMeshes, List.map_cons, List.flatMap_cons, List.sum_cons]
      apply List.rel_append
      · have hsub : subMeshesOf e.2 = m.subMeshes := by simp [subMeshesOf, hm]
        rw [hsub, List.forall₂_map_left_iff, List.forall₂_map_right_iff, List.forall₂_same]
        intro sm _ h0 hlt
        dsimp only at h0 hlt ⊢
        obtain ⟨d, hd⟩ := Int.eq_ofNat_of_zero_le h0
        have hd' : sm.diffuseTextureIndex = (d : Int) := hd
        rw [hd'] at hlt ⊢
        have hdlt : d < (imageInfosOf e.2).length := by
          rw [length_imageInfosOf]
          exact_mod_cast hlt
        have hidx : ((off : Int) + (d : Int)).toNat = pre.length + d := by
          rw [hpre]
          omega
        have hne : ¬ ((d : Int) = -1) := by omega
        rw [if_neg hne, hidx, Int.toNat_ofNat]
        have hlt' : d < textureCount e.2 := by exact_mod_cast hlt
        refine ⟨by omega, ?_, ?_, ?_⟩
        · have hsum : off + d
              < off + (textureCount e.2 + ((rest.map Prod.snd).map textureCount).sum) := by
            omega
          exact_mod_cast hsum
        · exact getElem?_concatenated pre (imageInfosOf e.2) _ d hdlt
        · rw [List.getElem?_eq_getElem hdlt]
          rfl
      · refine hall.imp ?_
        intro i osm h h0 hlt
        obtain ⟨h1, h2, h3, h4⟩ := h h0 hlt
        refine ⟨h1, ?_, ?_, h4⟩
        · rw [htc]
          have : ((off + m.textures.length + ((rest.map Prod.snd).map textureCount).sum : Nat)
              : Int) = ((off + (m.textures.length
                + ((rest.map Prod.snd).map textureCount).sum) : Nat) : Int) := by
            rw [Nat.add_assoc]
          rw [← this]
          exact h2
        · rw [← h3, List.append_assoc]

theorem textureArray_written (infos : List Nat) (n : Nat) (h : infos.length = n) :
    VkDescriptorSet.textureArray
        { writes :=
            if n ≠ 0 then [{ binding := 0, imageInfos := infos, count := n }] else [] }
      = infos := by
  by_cases hn : n = 0
  · have hnil : infos = [] := List.length_eq_zero.mp (h.trans hn)
    simp [VkDescriptorSet.textureArray, hn, hnil]
  · subst h
    have hne : infos ≠ [] := fun h0 => hn (by simp [h0])
    simp [VkDescriptorSet.textureArray, hne]

theorem lookup_modelObjectsIds {sceneObjects : SceneObject.Map}
    (hnd : (sceneObjects.map Prod.fst).Nodup) :
    (fillLoop [] sceneObjects).map (fun id => sceneObjects.lookup id)
      = (eligibleObjects sceneObjects).map some := by
  rw [fillLoop_eq, List.nil_append, eligibleObjects, List.map_map, List.map_map]
  apply List.map_congr_left
  intro e he
  exact (eligible_entries_spec hnd e he).1

/-- C11. On one scene, the descriptor array and the pushed indices agree. The eligible
objects are the objects of `modelObjectsIds`, in that order; `createDescriptorSets` writes to
each descriptor set the concatenation of their textures' image infos in that order; and
`renderSceneObjects` returns and pushes, for every eligible object and every sub-mesh with
`0 ≤ d < that object's texture count`, an index `i` with `0 ≤ i < total texture count` whose
entry in the written array is that object's `d`-th texture. -/
theorem descriptors_agree_with_pushes (MAX_FRAMES_IN_FLIGHT : Nat) (s : TextureRenderSystem)
    (frameInfo : FrameInfo) (hnd : (frameInfo.sceneObjects.map Prod.fst).Nodup)
    (hp : s.wrpPipeline.isSome = true)
    (hf : frameInfo.frameIndex < s.systemDescriptorSets.length) :
    ((s.fillModelsIds frameInfo.sceneObjects).1.modelObjectsIds.map
        fun id => frameInfo.sceneObjects.lookup id)
      = (eligibleObjects frameInfo.sceneObjects).map some ∧
    ((s.fillModelsIds frameInfo.sceneObjects).1.createDescriptorSets
        MAX_FRAMES_IN_FLIGHT frameInfo).map
        (fun s1 => s1.systemDescriptorSets.map fun set =>
          set.map VkDescriptorSet.textureArray)
      = some (s.systemDescriptorSets.map fun _ =>
          some (concatenatedImageInfos frameInfo.sceneObjects)) ∧
    ∃ r, s.renderSceneObjects MAX_FRAMES_IN_FLIGHT frameInfo = some r ∧
      List.Forall₂ (indexAgrees frameInfo.sceneObjects) (pushedTextureIndices r.2)
        (drawnSubMeshes frameInfo.sceneObjects) := by
  refine ⟨lookup_modelObjectsIds hnd, ?_, ?_⟩
  · have hw := textureArray_written
      ((eligibleObjects frameInfo.sceneObjects).flatMap imageInfosOf)
      (totalTextureCount frameInfo.sceneObjects) (length_imageInfos _)
    unfold TextureRenderSystem.createDescriptorSets TextureRenderSystem.fillModelsIds
      concatenatedImageInfos
    simp only [gatherTextures_fill hnd]
    by_cases h : totalTextureCount frameInfo.sceneObjects = 0
    · simp only [h, ne_eq, not_true_eq_false, if_false] at hw ⊢
      simp [hw]
    · simp only [h, ne_eq, not_false_eq_true, if_true] at hw ⊢
      simp [hw, TextureRenderSystem.rewriteAndRecompileFragShader]
  · obtain ⟨s1, head, draws, -, hd, hhead, hr⟩ :=
      renderSceneObjects_spec MAX_FRAMES_IN_FLIGHT s frameInfo hnd hp hf
    obtain ⟨cmds, hc, hall⟩ :=
      drawObjects_agree frameInfo.sceneObjects _ (eligible_entries_spec hnd) 0 [] rfl
    rw [fillLoop_eq, List.nil_append] at hd
    have hc' : drawObjects frameInfo.sceneObjects 0
        ((frameInfo.sceneObjects.filter fun kv => eligible kv.2).map Prod.fst)
          = some cmds := hc
    rw [hd] at hc'
    cases hc'
    refine ⟨(s1, head ++ draws), hr, ?_⟩
    simp only [pushedTextureIndices_append, hhead, List.nil_append]
    refine hall.imp ?_
    intro i osm h h0 hlt
    obtain ⟨h1, h2, h3, h4⟩ := h h0 hlt
    refine ⟨h1, ?_, ?_, h4⟩
    · simpa [totalTextureCount, eligibleObjects] using h2
    · simpa [concatenatedImageInfos, eligibleObjects] using h3

/-- C11, instance: the system built on A and B draws the scene of A and B; the array written
to each set is `[10, 11, 20]` and the pushed indices are `0` (texture 0 of A) and `2`
(texture 0 of B). -/
theorem descriptors_agree_with_pushes_witness :
    ((frameAB.sceneObjects.map Prod.fst).Nodup ∧ systemAB.wrpPipeline.isSome = true ∧
      frameAB.frameIndex < systemAB.systemDescriptorSets.length) ∧
    (concatenatedImageInfos frameAB.sceneObjects = [10, 11, 20] ∧
      systemAB.systemDescriptorSets.map (fun set => set.map VkDescriptorSet.textureArray)
        = [some [10, 11, 20], some [10, 11, 20]] ∧
      (systemAB.renderSceneObjects 2 frameAB).map (fun r => pushedTextureIndices r.2)
        = some [0, 2]) ∧
    (((systemAB.fillModelsIds frameAB.sceneObjects).1.modelObjectsIds.map
        fun id => frameAB.sceneObjects.lookup id)
      = (eligibleObjects frameAB.sceneObjects).map some ∧
    ((systemAB.fillModelsIds frameAB.sceneObjects).1.createDescriptorSets 2 frameAB).map
        (fun s1 => s1.systemDescriptorSets.map fun set =>
          set.map VkDescriptorSet.textureArray)
      = some (systemAB.systemDescriptorSets.map fun _ =>
          some (concatenatedImageInfos frameAB.sceneObjects)) ∧
    ∃ r, systemAB.renderSceneObjects 2 frameAB = some r ∧
      List.Forall₂ (indexAgrees frameAB.sceneObjects) (pushedTextureIndices r.2)
        (drawnSubMeshes frameAB.sceneObjects)) :=
  ⟨⟨by decide, by decide, by decide⟩, ⟨by decide, by decide, by decide⟩,
   descriptors_agree_with_pushes 2 systemAB frameAB (by decide) (by decide) (by decide)⟩

/-! ## Lemmas: the view matrix and its inverse -/

/-- Over any commutative ring, with any functions `cos` and `sin` that satisfy
`sin a ^ 2 + cos a ^ 2 = 1`: view matrix times inverse view matrix is the identity. -/
theorem setViewYXZ_view_mul_inverse {R : Type} [CommRing R] (cos sin : R → R)
    (h : ∀ a, sin a ^ 2 + cos a ^ 2 = 1) (camera : WrpCamera R)
    (position rotation : vec3 R) :
    (WrpCamera.setViewYXZ cos sin camera position rotation).viewMatrix.toMatrix
      * (WrpCamera.setViewYXZ cos sin camera position rotation).inverseViewMatrix.toMatrix
      = 1 := by
  have hs1 : sin rotation.y ^ 2 = 1 - cos rotation.y ^ 2 := by
    linear_combination h rotation.y
  have hs2 : sin rotation.x ^ 2 = 1 - cos rotation.x ^ 2 := by
    linear_combination h rotation.x
  have hs3 : sin rotation.z ^ 2 = 1 - cos rotation.z ^ 2 := by
    linear_combination h rotation.z
  ext i j
  fin_cases i <;> fin_cases j <;>
    simp [Matrix.mul_apply, Fin.sum_univ_four, mat4.toMatrix, WrpCamera.setViewYXZ, mat4.set,
      mat4.diagonal, dot, Matrix.one_apply]
  all_goals first | ring1 | (ring_nf; simp only [hs1, hs2, hs3]; ring1)

/-- Over any commutative ring, with any functions `cos` and `sin` that satisfy
`sin a ^ 2 + cos a ^ 2 = 1`: inverse view matrix times view matrix is the identity. -/
theorem setViewYXZ_inverse_mul_view {R : Type} [CommRing R] (cos sin : R → R)
    (h : ∀ a, sin a ^ 2 + cos a ^ 2 = 1) (camera : WrpCamera R)
    (position rotation : vec3 R) :
    (WrpCamera.setViewYXZ cos sin camera position rotation).inverseViewMatrix.toMatrix
      * (WrpCamera.setViewYXZ cos sin camera position rotation).viewMatrix.toMatrix
      = 1 := by
  have hs1 : sin rotation.y ^ 2 = 1 - cos rotation.y ^ 2 := by
    linear_combination h rotation.y
  have hs2 : sin rotation.x ^ 2 = 1 - cos rotation.x ^ 2 := by
    linear_combination h rotation.x
  have hs3 : sin rotation.z ^ 2 = 1 - cos rotation.z ^ 2 := by
    linear_combination h rotation.z
  ext i j
  fin_cases i <;> fin_cases j <;>
    simp [Matrix.mul_apply, Fin.sum_univ_four, mat4.toMatrix, WrpCamera.setViewYXZ, mat4.set,
      mat4.diagonal, dot, Matrix.one_apply]
  all_goals first | ring1 | (ring_nf; simp only [hs1, hs2, hs3]; ring1)

/-- C12. Over the real numbers, for every position and every rotation, the
`inverseViewMatrix` set by `setViewYXZ` is the inverse of the `viewMatrix` it sets: both
products are the identity, and the inverse view matrix maps every transformed vector back. -/
theorem setViewYXZ_inverseViewMatrix (camera : WrpCamera ℝ) (position rotation : vec3 ℝ) :
    (WrpCamera.setViewYXZ Real.cos Real.sin camera position rotation).viewMatrix.toMatrix
      * (WrpCamera.setViewYXZ Real.cos Real.sin camera position
          rotation).inverseViewMatrix.toMatrix = 1 ∧
    (WrpCamera.setViewYXZ Real.cos Real.sin camera position
        rotation).inverseViewMatrix.toMatrix
      * (WrpCamera.setViewYXZ Real.cos Real.sin camera position rotation).viewMatrix.toMatrix
      = 1 ∧
    ∀ x : Fin 4 → ℝ,
      (WrpCamera.setViewYXZ Real.cos Real.sin camera position
          rotation).inverseViewMatrix.toMatrix.mulVec
        ((WrpCamera.setViewYXZ Real.cos Real.sin camera position
          rotation).viewMatrix.toMatrix.mulVec x) = x := by
  have h1 := setViewYXZ_view_mul_inverse Real.cos Real.sin Real.sin_sq_add_cos_sq camera
    position rotation
  have h2 := setViewYXZ_inverse_mul_view Real.cos Real.sin Real.sin_sq_add_cos_sq camera
    position rotation
  refine ⟨h1, h2, ?_⟩
  intro x
  rw [Matrix.mulVec_mulVec, h2, Matrix.one_mulVec]

/-- An evaluation of `setViewYXZ` over the integers, with quarter turns about all three axes
(`cos = 0`, `sin = 1`) and position `(1, 2, 3)`: the rows of the view matrix and of the
inverse view matrix. -/
theorem setViewYXZ_quarter_turns :
    ([0, 1, 2, 3].map fun r => [0, 1, 2, 3].map fun c =>
        (WrpCamera.setViewYXZ (fun _ => (0 : Int)) (fun _ => 1)
          { projectionMatrix := mat4.diagonal 1, viewMatrix := mat4.diagonal 1,
            inverseViewMatrix := mat4.diagonal 1 }
          { x := 1, y := 2, z := 3 } { x := 0, y := 0, z := 0 }).viewMatrix c r)
      = [[1, 0, 0, -1], [0, 0, 1, -3], [0, -1, 0, 2], [0, 0, 0, 1]] ∧
    ([0, 1, 2, 3].map fun r => [0, 1, 2, 3].map fun c =>
        (WrpCamera.setViewYXZ (fun _ => (0 : Int)) (fun _ => 1)
          { projectionMatrix := mat4.diagonal 1, viewMatrix := mat4.diagonal 1,
            inverseViewMatrix := mat4.diagonal 1 }
          { x := 1, y := 2, z := 3 } { x := 0, y := 0, z := 0 }).inverseViewMatrix c r)
      = [[1, 0, 0, 1], [0, 0, -1, 2], [0, 1, 0, 3], [0, 0, 0, 1]] := by
  decide

/-! ## Lemmas: the draw loops in the arithmetic of `int` -/

theorem int32_of_range (z : Int) (h0 : -2147483648 ≤ z) (h1 : z < 2147483648) :
    int32 z = z := by
  unfold int32
  omega

theorem int32_add_left (a b : Int) : int32 (int32 a + b) = int32 (a + b) := by
  unfold int32
  omega

theorem flatMap_congr_mem {α β : Type} (l : List α) (f g : α → List β)
    (h : ∀ x ∈ l, f x = g x) : l.flatMap f = l.flatMap g := by
  induction l with
  | nil => rfl
  | cons a rest ih =>
    rw [List.flatMap_cons, List.flatMap_cons, h a (List.mem_cons_self _ _),
      ih (fun x hx => h x (List.mem_cons_of_mem _ hx))]

theorem pushedTextureIndices_drawSubMeshes32 (off : Int)
    (push : TextureSystemPushConstantData) (subMeshes : List SubMeshInfo) :
    pushedTextureIndices (drawSubMeshes32 off push subMeshes)
      = subMeshes.map fun sm =>
          if sm.diffuseTextureIndex = -1 then -1 else int32 (off + sm.diffuseTextureIndex) := by
  induction subMeshes generalizing push with
  | nil => rfl
  | cons sm rest ih =>
    by_cases h : sm.diffuseTextureIndex = -1 <;>
      simp [drawSubMeshes32, pushedTextureIndices, ih, h]

theorem drawObjects32_entries (sceneObjects : SceneObject.Map)
    (es : List (id_t × SceneObject))
    (hes : ∀ e ∈ es, sceneObjects.lookup e.1 = some e.2 ∧ eligible e.2 = true)
    (off : Int) :
    ∃ cmds, drawObjects32 sceneObjects off (es.map Prod.fst) = some cmds ∧
      pushedTextureIndices cmds
        = (es.map Prod.snd).enum.flatMap fun ko =>
            (subMeshesOf ko.2).map fun sm =>
              if sm.diffuseTextureIndex = -1 then -1
              else int32 (off + ((((es.map Prod.snd).take ko.1).map textureCount).sum : Nat)
                    + sm.diffuseTextureIndex) := by
  induction es generalizing off with
  | nil => exact ⟨[], by simp [drawObjects32], by simp [pushedTextureIndices]⟩
  | cons e rest ih =>
    have he := hes e (List.mem_cons_self _ _)
    obtain ⟨m, hm⟩ := eligible_model he.2
    obtain ⟨cmds, hc, hp⟩ :=
      ih (fun x hx => hes x (List.mem_cons_of_mem _ hx)) (int32 (off + m.textures.length))
    refine ⟨Cmd.bindModel e.1 :: (drawSubMeshes32 off
      { modelMatrix := e.2.mat4, normalMatrix := e.2.normalMatrix,
        textureIndex := 0, diffuseColor := 0 } m.subMeshes ++ cmds), ?_, ?_⟩
    · simp only [List.map_cons, drawObjects32, he.1, hm, hc]
    simp only [pushedTextureIndices, pushedTextureIndices_append,
      pushedTextureIndices_drawSubMeshes32, hp, List.map_cons, List.enum_cons',
      List.flatMap_cons, List.flatMap_map, subMeshesOf, hm]
    congr 1
    · simp
    · congr 1
      funext ko
      simp only [Function.comp, Prod.map, id, List.take_succ_cons, List.map_cons, List.sum_cons,
        textureCount, hm]
      congr 1
      funext sm
      by_cases hd : sm.diffuseTextureIndex = -1
      · simp only [hd, if_true]
      · simp only [hd, if_false]
        rw [add_assoc (int32 _), int32_add_left]
        congr 1
        push_cast
        ring

theorem drawObjects32_fill {sceneObjects : SceneObject.Map}
    (hnd : (sceneObjects.map Prod.fst).Nodup) :
    ∃ cmds, drawObjects32 sceneObjects 0 (fillLoop [] sceneObjects) = some cmds ∧
      pushedTextureIndices cmds
        = (eligibleObjects sceneObjects).enum.flatMap fun ko =>
            (subMeshesOf ko.2).map fun sm =>
              if sm.diffuseTextureIndex = -1 then (-1 : Int)
              else int32
                ((((((eligibleObjects sceneObjects).take ko.1).map textureCount).sum : Nat)
                    : Int) + sm.diffuseTextureIndex) := by
  obtain ⟨cmds, hc, hp⟩ :=
    drawObjects32_entries sceneObjects _ (eligible_entries_spec hnd) 0
  refine ⟨cmds, ?_, ?_⟩
  · rw [fillLoop_eq, List.nil_append]
    exact hc
  · rw [hp]
    simp only [eligibleObjects, zero_add]

/-- The indices pushed by `renderSceneObjects32`, for every input: each sum reduced to the
range of `int`. -/
theorem renderSceneObjects32_pushes (MAX_FRAMES_IN_FLIGHT : Nat) (s : TextureRenderSystem)
    (frameInfo : FrameInfo) (hnd : (frameInfo.sceneObjects.map Prod.fst).Nodup)
    (hp : s.wrpPipeline.isSome = true)
    (hf : frameInfo.frameIndex < s.systemDescriptorSets.length) :
    (s.renderSceneObjects32 MAX_FRAMES_IN_FLIGHT frameInfo).map
        (fun r => pushedTextureIndices r.2)
      = some ((eligibleObjects frameInfo.sceneObjects).enum.flatMap fun ko =>
          (subMeshesOf ko.2).map fun subMesh =>
            if subMesh.diffuseTextureIndex = -1 then (-1 : Int)
            else int32
              ((((((eligibleObjects frameInfo.sceneObjects).take ko.1).map
                      textureCount).sum : Nat) : Int)
                  + subMesh.diffuseTextureIndex)) := by
  obtain ⟨s1, hs1, hids, hlen, hpipe⟩ := refresh_spec MAX_FRAMES_IN_FLIGHT s frameInfo hnd
  obtain ⟨draws, hd, hpush⟩ := drawObjects32_fill hnd
  obtain ⟨pipeline, hpl⟩ := Option.isSome_iff_exists.mp (hpipe hp)
  have hf1 : frameInfo.frameIndex < s1.systemDescriptorSets.length := by omega
  unfold TextureRenderSystem.renderSceneObjects32
  simp only [hs1, hpl, hids, hd, List.getElem?_eq_getElem hf1, Option.map_some',
    pushedTextureIndices, hpush]

/-- Within the range of `int` the two readings of the draw loops push the same indices. -/
theorem renderSceneObjects32_agrees (MAX_FRAMES_IN_FLIGHT : Nat) (s : TextureRenderSystem)
    (frameInfo : FrameInfo) (hnd : (frameInfo.sceneObjects.map Prod.fst).Nodup)
    (hp : s.wrpPipeline.isSome = true)
    (hf : frameInfo.frameIndex < s.systemDescriptorSets.length)
    (hrange : ∀ ko ∈ (eligibleObjects frameInfo.sceneObjects).enum,
      ∀ subMesh ∈ subMeshesOf ko.2, subMesh.diffuseTextureIndex ≠ -1 →
        -2147483648 ≤ (((((eligibleObjects frameInfo.sceneObjects).take ko.1).map
            textureCount).sum : Nat) : Int) + subMesh.diffuseTextureIndex ∧
        (((((eligibleObjects frameInfo.sceneObjects).take ko.1).map
            textureCount).sum : Nat) : Int) + subMesh.diffuseTextureIndex < 2147483648) :
    (s.renderSceneObjects32 MAX_FRAMES_IN_FLIGHT frameInfo).map
        (fun r => pushedTextureIndices r.2)
      = (s.renderSceneObjects MAX_FRAMES_IN_FLIGHT frameInfo).map
        (fun r => pushedTextureIndices r.2) := by
  obtain ⟨s1, head, draws, -, hd, hhead, hr⟩ :=
    renderSceneObjects_spec MAX_FRAMES_IN_FLIGHT s frameInfo hnd hp hf
  obtain ⟨draws', hd', hpush⟩ := drawObjects_fill hnd
  rw [hd] at hd'
  cases hd'
  rw [hr, renderSceneObjects32_pushes MAX_FRAMES_IN_FLIGHT s frameInfo hnd hp hf]
  simp only [Option.map_some', pushedTextureIndices_append, hhead, List.nil_append, hpush]
  congr 1
  apply flatMap_congr_mem
  intro ko hko
  apply List.map_congr_left
  intro subMesh hsm
  by_cases hdi : subMesh.diffuseTextureIndex = -1
  · simp only [hdi, if_true]
  · simp only [hdi, if_false]
    exact int32_of_range _ (hrange ko hko subMesh hsm hdi).1 (hrange ko hko subMesh hsm hdi).2

/-- C7, counterexample: the template has exactly one line beginning with
`#define TEXTURES_COUNT ` and no `TEXTURES` define or sampler-array line, and a comment line
that holds `#define TEXTURES_COUNT 5`. After the runs with counts 3 and 5 the generated text
has the `#define TEXTURES` line twice and the sampler-array line twice. -/
theorem generated_injected_twice :
    getlines countInCommentTemplate
      = ["#define TEXTURES_COUNT 0".toList, "// was: #define TEXTURES_COUNT 5".toList,
         "void main() \x7b\x7d".toList] ∧
    macrosPrefix <+: "#define TEXTURES_COUNT 0".toList ∧
    ¬ macrosPrefix <+: "// was: #define TEXTURES_COUNT 5".toList ∧
    ¬ macrosPrefix <+: "void main() \x7b\x7d".toList ∧
    texturesDefineLine ∉ getlines countInCommentTemplate ∧
    samplerArrayLine ∉ getlines countInCommentTemplate ∧
    getlines (((TextureRenderSystem.initial 2 0 0 (some countInCommentTemplate)
        []).rewriteAndRecompileFragShader 3).rewriteAndRecompileFragShader 5).generatedFrag
      = ["#define TEXTURES_COUNT 5".toList, texturesDefineLine, samplerArrayLine,
         "#define TEXTURES_COUNT 55".toList, texturesDefineLine, samplerArrayLine,
         "void main() \x7b\x7d".toList] ∧
    (getlines (((TextureRenderSystem.initial 2 0 0 (some countInCommentTemplate)
        []).rewriteAndRecompileFragShader 3).rewriteAndRecompileFragShader
        5).generatedFrag).count texturesDefineLine = 2 ∧
    (getlines (((TextureRenderSystem.initial 2 0 0 (some countInCommentTemplate)
        []).rewriteAndRecompileFragShader 3).rewriteAndRecompileFragShader
        5).generatedFrag).count samplerArrayLine = 2 := by
  decide


end Wrp
